import Mathlib

/-!
# Verification of the agent-poker table engine

This file is a shallow embedding, in Lean 4, of the pure game engine of the
agent-poker repository (src/engine/game.ts, src/engine/deck.ts,
src/engine/evaluator.ts, src/security/sanitizer.ts), together with theorems
settling the specification claims about it.

Conventions of the embedding:
* JavaScript numbers holding chip counts, bets, pots and seat indices are
  modelled as `Int` (all arithmetic in the source is integer arithmetic;
  indices can legitimately be `-1`).
* `Date.now()` and the random hand-id are passed in as explicit parameters
  (`now : Int`, `handId : String`); `shuffleDeck` draws cryptographic
  randomness, so shuffled decks are passed in as an explicit `List Card`
  parameter wherever the source calls `shuffleDeck(createDeck())`.
* An out-of-range element access that would make the JavaScript code throw a
  `TypeError` is modelled by propagating `Option.none`; functions that cannot
  throw are total.
* JavaScript `%` is truncated remainder, modelled by `Int.tmod`; JavaScript
  `Math.floor(a / b)` for `b > 0` is flooring division, modelled by
  `Int.fdiv`.
-/

namespace Poker

/-- JavaScript remainder operator on integers (truncates toward zero). -/
def jsMod (a b : Int) : Int := Int.tmod a b

/-- JavaScript Math.floor(a / b) for positive b: flooring division. -/
def jsFloorDiv (a b : Int) : Int := Int.fdiv a b

/-! ## Card types (src/types/index.ts) -/

/-- Suit component of a card: hearts, diamonds, clubs, spades. -/
inductive Suit
  | h | d | c | s
deriving DecidableEq, Repr

/-- Rank component of a card. -/
inductive Rank
  | r2 | r3 | r4 | r5 | r6 | r7 | r8 | r9 | rT | rJ | rQ | rK | rA
deriving DecidableEq, Repr

/-- A card is a rank/suit pair (the source encodes it as the two-character
string rank ++ suit). -/
structure Card where
  rank : Rank
  suit : Suit
deriving DecidableEq, Repr

/-- Numeric value of a rank, per rankToNumber in deck.ts. -/
def rankToNumber : Rank → Int
  | .r2 => 2 | .r3 => 3 | .r4 => 4 | .r5 => 5 | .r6 => 6 | .r7 => 7
  | .r8 => 8 | .r9 => 9 | .rT => 10 | .rJ => 11 | .rQ => 12 | .rK => 13
  | .rA => 14

/-- cardRank from deck.ts: first character of the card string. -/
def cardRank (card : Card) : Rank := card.rank

/-- cardSuit from deck.ts: second character of the card string. -/
def cardSuit (card : Card) : Suit := card.suit

/-- SUITS constant from deck.ts, in source order. -/
def SUITS : List Suit := [.h, .d, .c, .s]

/-- RANKS constant from deck.ts, in source order. -/
def RANKS : List Rank :=
  [.r2, .r3, .r4, .r5, .r6, .r7, .r8, .r9, .rT, .rJ, .rQ, .rK, .rA]

/-- createDeck from deck.ts: all 52 cards, suits outer loop, ranks inner. -/
def createDeck : List Card :=
  SUITS.flatMap (fun suit => RANKS.map (fun rank => Card.mk rank suit))

/-- dealCards from deck.ts: slice(0, count) and slice(count). -/
def dealCards (deck : List Card) (count : Nat) :
    List Card × List Card :=
  (deck.take count, deck.drop count)

/-! ## Hand evaluator (src/engine/evaluator.ts) -/

/-- Result of evaluating a 5-card hand: numeric hand-rank class (HandRank
enum value), the rank-class name, kicker vector for tie-breaking, and a
human-readable description. -/
structure HandEvaluation where
  rank : Int
  rankName : String
  kickers : List Int
  description : String
deriving DecidableEq, Repr

/-- compareHands from evaluator.ts: positive when a beats b, negative when b
beats a, zero on a genuine tie.  The source compares the rank fields, then
the kicker vectors pointwise up to the shorter length. -/
def compareKickers : List Int → List Int → Int
  | a :: as, b :: bs => if a ≠ b then a - b else compareKickers as bs
  | _, _ => 0

/-- Total-order comparison on hand evaluations (compareHands). -/
def compareHands (a b : HandEvaluation) : Int :=
  if a.rank ≠ b.rank then a.rank - b.rank
  else compareKickers a.kickers b.kickers

/-- getCombinations from evaluator.ts: all size-element sublists, in source
order. -/
def getCombinations {α : Type} : List α → Nat → List (List α)
  | _, 0 => [[]]
  | [], _ + 1 => []
  | first :: rest, size + 1 =>
      (getCombinations rest size).map (fun combo => first :: combo) ++
        getCombinations rest (size + 1)

/-- checkStraight from evaluator.ts, on a descending-sorted rank list: each
adjacent difference is exactly 1. -/
def checkStraight : List Int → Bool
  | a :: b :: rest => decide (a - b = 1) && checkStraight (b :: rest)
  | _ => true

/-- checkLowStraight from evaluator.ts: the descending rank list is exactly
[14, 5, 4, 3, 2]. -/
def checkLowStraight (sortedRanks : List Int) : Bool :=
  decide (sortedRanks = [14, 5, 4, 3, 2])

/-- rankName from evaluator.ts. -/
def rankName (value : Int) : String :=
  if value = 2 then "Two" else if value = 3 then "Three"
  else if value = 4 then "Four" else if value = 5 then "Five"
  else if value = 6 then "Six" else if value = 7 then "Seven"
  else if value = 8 then "Eight" else if value = 9 then "Nine"
  else if value = 10 then "Ten" else if value = 11 then "Jack"
  else if value = 12 then "Queen" else if value = 13 then "King"
  else if value = 14 then "Ace" else toString value

/-- Insert into a descending-sorted list (used to model the JavaScript
numeric sort with comparator (a, b) => b - a). -/
def insertDesc (x : Int) : List Int → List Int
  | [] => [x]
  | y :: ys => if y < x then x :: y :: ys else y :: insertDesc x ys

/-- Sort a list of integers descending (JavaScript sort((a, b) => b - a)). -/
def sortDesc (l : List Int) : List Int := l.foldl (fun acc x => insertDesc x acc) []

/-- A rank group: a rank value with its multiplicity among the five cards. -/
structure RankGroup where
  rank : Int
  count : Int
deriving DecidableEq, Repr

/-- Order used for the groups sort in evaluate5Cards: count descending,
then rank descending (the source comparator b.count - a.count || b.rank -
a.rank; keys are distinct so stability is irrelevant). -/
def groupBefore (x y : RankGroup) : Bool :=
  y.count < x.count || (x.count = y.count && y.rank < x.rank)

/-- Stable insertion for the group sort. -/
def insertGroup (x : RankGroup) : List RankGroup → List RankGroup
  | [] => [x]
  | y :: ys => if groupBefore x y then x :: y :: ys else y :: insertGroup x ys

/-- Sort rank groups by count descending then rank descending. -/
def sortGroups (l : List RankGroup) : List RankGroup :=
  l.foldl (fun acc x => insertGroup x acc) []

/-- Deduplication worker: keep each value the first time it is seen. -/
def dedupSeen (seen : List Int) : List Int → List Int
  | [] => []
  | x :: xs =>
      if x ∈ seen then dedupSeen seen xs
      else x :: dedupSeen (x :: seen) xs

/-- Remove duplicates keeping first occurrences (the JavaScript Set keeps
insertion order; Object.entries over integer-like keys yields each key
once). -/
def dedupFirst (l : List Int) : List Int := dedupSeen [] l

/-- The multiplicity of r in the rank list. -/
def countRank (ranks : List Int) (r : Int) : Int :=
  (ranks.filter (fun x => x = r)).length

/-- The rank groups of a 5-card rank list, sorted count-desc then rank-desc
(the counts object plus the groups sort in evaluate5Cards; Object.entries
iterates integer-like keys in ascending order, and every key is distinct, so
the sorted result is independent of that starting order). -/
def groupsOf (ranks : List Int) : List RankGroup :=
  sortGroups ((dedupFirst ranks).map (fun r => RankGroup.mk r (countRank ranks r)))

/-- Head of a group list (groups[0] in the source; the list is nonempty for
any nonempty hand, and the source indexes it unconditionally).  The default
is never reached on 5-card inputs. -/
def groupAt (groups : List RankGroup) (i : Nat) : RankGroup :=
  (groups.get? i).getD (RankGroup.mk 0 0)

/-- evaluate5Cards from evaluator.ts, on exactly five cards. -/
def evaluate5Cards (cards : List Card) : HandEvaluation :=
  let ranks := sortDesc (cards.map (fun c => rankToNumber (cardRank c)))
  let suits := cards.map cardSuit
  let isFlush := suits.all (fun x => decide (x = (suits.getD 0 Suit.h)))
  let isStraight := checkStraight ranks
  let groups := groupsOf ranks
  let isLowStraight := checkLowStraight ranks
  let straightHigh : Int :=
    if isLowStraight then 5 else if isStraight then ranks.getD 0 0 else 0
  let top : Int := ranks.getD 0 0
  if isFlush && isStraight && decide (top = 14) then
    { rank := 9, rankName := "Royal Flush", kickers := ranks,
      description := "Royal Flush" }
  else if isFlush && (isStraight || isLowStraight) then
    { rank := 8, rankName := "Straight Flush", kickers := [straightHigh],
      description := "Straight Flush, " ++ rankName straightHigh ++ " high" }
  else if (groupAt groups 0).count = 4 then
    let quad := (groupAt groups 0).rank
    let kicker := (groupAt groups 1).rank
    { rank := 7, rankName := "Four of a Kind", kickers := [quad, kicker],
      description := "Four " ++ rankName quad ++ "s" }
  else if (groupAt groups 0).count = 3 && (groupAt groups 1).count = 2 then
    { rank := 6, rankName := "Full House",
      kickers := [(groupAt groups 0).rank, (groupAt groups 1).rank],
      description := "Full House, " ++ rankName (groupAt groups 0).rank ++
        "s full of " ++ rankName (groupAt groups 1).rank ++ "s" }
  else if isFlush then
    { rank := 5, rankName := "Flush", kickers := ranks,
      description := "Flush, " ++ rankName top ++ " high" }
  else if isStraight || isLowStraight then
    { rank := 4, rankName := "Straight", kickers := [straightHigh],
      description := "Straight, " ++ rankName straightHigh ++ " high" }
  else if (groupAt groups 0).count = 3 then
    let trip := (groupAt groups 0).rank
    let kickers := (groups.filter (fun g => g.count = 1)).map RankGroup.rank
    { rank := 3, rankName := "Three of a Kind", kickers := trip :: kickers,
      description := "Three " ++ rankName trip ++ "s" }
  else if (groupAt groups 0).count = 2 && (groupAt groups 1).count = 2 then
    let high := max (groupAt groups 0).rank (groupAt groups 1).rank
    let low := min (groupAt groups 0).rank (groupAt groups 1).rank
    let kicker := (groupAt groups 2).rank
    { rank := 2, rankName := "Two Pair", kickers := [high, low, kicker],
      description := "Two Pair, " ++ rankName high ++ "s and " ++
        rankName low ++ "s" }
  else if (groupAt groups 0).count = 2 then
    let pair := (groupAt groups 0).rank
    let kickers := (groups.filter (fun g => g.count = 1)).map RankGroup.rank
    { rank := 1, rankName := "Pair", kickers := pair :: kickers,
      description := "Pair of " ++ rankName pair ++ "s" }
  else
    { rank := 0, rankName := "High Card", kickers := ranks,
      description := rankName top ++ " high" }

/-- evaluateHand from evaluator.ts: best 5-card evaluation among all 5-card
subsets of the given cards.  The source keeps a nullable best and asserts it
non-null at the end; with fewer than five cards there are no combinations,
which is modelled as none. -/
def evaluateHand (cards : List Card) : Option HandEvaluation :=
  (getCombinations cards 5).foldl
    (fun best combo =>
      let evaluation := evaluate5Cards combo
      match best with
      | none => some evaluation
      | some b => if compareHands evaluation b > 0 then some evaluation else some b)
    none

/-! ## Game state types (src/types/index.ts) -/

/-- Table phase. -/
inductive Phase
  | waiting | preflop | flop | turn | river | showdown
deriving DecidableEq, Repr

/-- Player status. -/
inductive PlayerStatus
  | active | folded | all_in | sitting_out
deriving DecidableEq, Repr

/-- Player action kinds. -/
inductive ActionType
  | fold | check | call | raise | all_in
deriving DecidableEq, Repr

/-- A seated player. -/
structure Player where
  agentId : String
  name : String
  chips : Int
  holeCards : List Card
  bet : Int
  totalBet : Int
  status : PlayerStatus
  seatIndex : Int
  hasActed : Bool
  sitOutCount : Int
deriving DecidableEq, Repr

/-- A chat message (the source field "from" is called fromAgent here because
from is a Lean keyword). -/
structure ChatMessage where
  fromAgent : String
  fromName : String
  text : String
  timestamp : Int
deriving DecidableEq, Repr

/-- One logged action. -/
structure GameAction where
  agentId : String
  action : ActionType
  amount : Int
  timestamp : Int
deriving DecidableEq, Repr

/-- Per-player entry of a hand record. -/
structure HandRecordPlayer where
  id : String
  name : String
  startChips : Int
deriving DecidableEq, Repr

/-- The per-hand log. -/
structure HandRecord where
  handId : String
  tableId : String
  players : List HandRecordPlayer
  holeCards : List (String × List Card)
  communityCards : List Card
  actions : List GameAction
  chat : List ChatMessage
  pot : Int
  winnerId : Option String
  winnerName : Option String
  winningHand : Option String
  startedAt : Int
  endedAt : Int
deriving DecidableEq, Repr

/-- Result summary of the last completed hand. -/
structure LastHandResult where
  winnerName : String
  winningHand : String
  potWon : Int
  handId : String
deriving DecidableEq, Repr

/-- The full table state. -/
structure TableState where
  tableId : String
  handId : String
  phase : Phase
  players : List Player
  communityCards : List Card
  pot : Int
  currentBet : Int
  currentTurnIndex : Int
  dealerIndex : Int
  smallBlind : Int
  bigBlind : Int
  deck : List Card
  handRecord : Option HandRecord
  lastActionTime : Int
  actionTimeoutMs : Int
  lastHandResult : Option LastHandResult
deriving DecidableEq, Repr

/-- Public per-player info exposed in agent views. -/
structure PublicPlayerInfo where
  id : String
  name : String
  chips : Int
  status : PlayerStatus
  bet : Int
deriving DecidableEq, Repr

/-- The filtered view returned to one agent. -/
structure AgentTableView where
  handId : String
  phase : Phase
  yourCards : List Card
  communityCards : List Card
  pot : Int
  currentBet : Int
  yourChips : Int
  yourBet : Int
  isYourTurn : Bool
  turn : Option String
  timeLeftMs : Int
  players : List PublicPlayerInfo
  recentChat : List ChatMessage
  availableActions : List ActionType
deriving DecidableEq, Repr

/-- JavaScript array element read players[i] for an Int index: undefined
(none) when out of range or negative. -/
def getP (ps : List Player) (i : Int) : Option Player :=
  if i < 0 then none else ps.get? i.toNat

/-! ## Game engine (src/engine/game.ts) -/

/-- canStartHand from game.ts. -/
def canStartHand (state : TableState) : Bool :=
  let readyPlayers := state.players.filter
    (fun p => decide (state.bigBlind ≤ p.chips) &&
      decide (p.status ≠ PlayerStatus.sitting_out))
  decide (state.phase = Phase.waiting) && decide (2 ≤ readyPlayers.length)

/-- The hole-card dealing loop of startHand: two cards to each player in
seat order, threading the remaining deck. -/
def dealHole : List Player → List Card → List Player × List Card
  | [], deck => ([], deck)
  | p :: ps, deck =>
      let r := dealCards deck 2
      let rest := dealHole ps r.2
      ({ p with holeCards := r.1 } :: rest.1, rest.2)

/-- The dealing-and-blind-posting tail of startHand (everything from the
dealerIndex computation to the returned state), with the values the head
of startHand computes (blinds, dealt-in players, sitting-out players)
passed in.  none models the TypeError the source would throw on a
negative blind-seat index (only possible when state.dealerIndex is
negative, which no reachable state has). -/
def startHandPost (state : TableState) (handId : String) (now : Int)
    (smallBlind bigBlind : Int) (players0 sittingOutPlayers : List Player)
    (shuffledDeck : List Card) : Option TableState :=
  let len : Int := players0.length
  let dealerIndex := jsMod state.dealerIndex len
  let dealt := dealHole players0 shuffledDeck
  let players1 := dealt.1
  let remaining := dealt.2
  let sbIndex : Int :=
    if players0.length = 2 then dealerIndex else jsMod (dealerIndex + 1) len
  let bbIndex : Int := jsMod (sbIndex + 1) len
  match getP players1 sbIndex, getP players1 bbIndex with
  | some sbP, some bbP =>
    let sbAmount := min smallBlind sbP.chips
    let bbAmount := min bigBlind bbP.chips
    let players2 := players1.set sbIndex.toNat
      { sbP with
        chips := sbP.chips - sbAmount, bet := sbAmount,
        totalBet := sbAmount }
    let players3 := players2.set bbIndex.toNat
      { bbP with
        chips := bbP.chips - bbAmount, bet := bbAmount,
        totalBet := bbAmount }
    let pot := sbAmount + bbAmount
    let firstToAct := jsMod (bbIndex + 1) len
    let handRecord : HandRecord :=
      { handId := handId, tableId := state.tableId,
        players := players3.map (fun p =>
          { id := p.agentId, name := p.name, startChips := p.chips + p.bet }),
        holeCards := players3.map (fun p => (p.agentId, p.holeCards)),
        communityCards := [], actions := [], chat := [], pot := pot,
        winnerId := none, winnerName := none, winningHand := none,
        startedAt := now, endedAt := 0 }
    let allPlayers := players3 ++
      sittingOutPlayers.mapIdx (fun i p => { p with seatIndex := len + (i : Int) })
    some { state with
      handId := handId, phase := Phase.preflop, players := allPlayers,
      communityCards := [], pot := pot, currentBet := bigBlind,
      currentTurnIndex := firstToAct, dealerIndex := dealerIndex,
      smallBlind := smallBlind, bigBlind := bigBlind, deck := remaining,
      handRecord := some handRecord, lastActionTime := now }
  | _, _ => none

/-- startHand from game.ts.  The shuffled deck, the generated hand id and
Date.now() are explicit parameters (the source computes them from the
cryptographic RNG and the clock); the part after the player-count check
is startHandPost above. -/
def startHand (state : TableState) (shuffledDeck : List Card)
    (handId : String) (now : Int) : Option TableState :=
  if ¬ canStartHand state then some state else
  let allChips := state.players.map Player.chips
  let total := allChips.sum
  let n : Int := allChips.length
  -- smallBlind = max(10, Math.floor((total / n) / 100)) = max(10, ⌊total / (100 n)⌋)
  let smallBlind := max 10 (jsFloorDiv total (100 * n))
  let bigBlind := smallBlind * 2
  let updatedPlayers0 := state.players.filter
    (fun p => ¬ (decide (p.chips < bigBlind) &&
      decide (p.status ≠ PlayerStatus.sitting_out)))
  let updatedPlayers1 := updatedPlayers0.map (fun p =>
    if p.status = PlayerStatus.sitting_out then
      { p with sitOutCount := p.sitOutCount + 1 } else p)
  let updatedPlayers := updatedPlayers1.filter
    (fun p => ¬ (decide (p.status = PlayerStatus.sitting_out) &&
      decide (10 ≤ p.sitOutCount)))
  let players0 := (updatedPlayers.filter
      (fun p => decide (bigBlind ≤ p.chips) &&
        decide (p.status ≠ PlayerStatus.sitting_out))).mapIdx
    (fun i p => { p with
      holeCards := [], bet := 0, totalBet := 0,
      status := PlayerStatus.active, seatIndex := (i : Int),
      hasActed := false })
  let sittingOutPlayers := updatedPlayers.filter
    (fun p => decide (p.status = PlayerStatus.sitting_out) ||
      decide (p.chips < bigBlind))
  if players0.length < 2 then some state else
  startHandPost state handId now smallBlind bigBlind players0
    sittingOutPlayers shuffledDeck

/-- getActivePlayers from game.ts: active or all-in. -/
def getActivePlayers (state : TableState) : List Player :=
  state.players.filter (fun p =>
    decide (p.status = PlayerStatus.active) ||
    decide (p.status = PlayerStatus.all_in))

/-- getActionPlayers from game.ts: can still act. -/
def getActionPlayers (state : TableState) : List Player :=
  state.players.filter (fun p => decide (p.status = PlayerStatus.active))

/-- The seat-scanning while-loop shared by moveToNextPlayer and the
first-actor search of advancePhase: step to the next seat until an active
player is found or the attempt budget (the seat count) is exhausted.
none models the TypeError thrown on an out-of-range access. -/
def moveLoop (ps : List Player) : Int → Nat → Option Int
  | next, fuel =>
    match getP ps next with
    | none => none
    | some p =>
      if p.status ≠ PlayerStatus.active then
        match fuel with
        | 0 => some next
        | f + 1 => moveLoop ps (jsMod (next + 1) (ps.length : Int)) f
      else some next

/-- moveToNextPlayer from game.ts. -/
def moveToNextPlayer (state : TableState) : Option TableState :=
  let next := jsMod (state.currentTurnIndex + 1) (state.players.length : Int)
  (moveLoop state.players next state.players.length).map
    (fun n => { state with currentTurnIndex := n })

/-- One entry of the contributors list of calculateSidePots. -/
structure Contributor where
  agentId : String
  totalBet : Int
  status : PlayerStatus
deriving DecidableEq, Repr

/-- A side pot: its chip amount and the agent ids eligible to win it. -/
structure SidePot where
  amount : Int
  eligible : List String
deriving DecidableEq, Repr

/-- Stable ascending insertion by total bet (the JavaScript stable
sort((a, b) => a.totalBet - b.totalBet)). -/
def insertByBet (x : Contributor) : List Contributor → List Contributor
  | [] => [x]
  | y :: ys => if x.totalBet < y.totalBet then x :: y :: ys
               else y :: insertByBet x ys

/-- Stable sort of contributors by ascending total bet. -/
def sortByBet (l : List Contributor) : List Contributor :=
  l.foldl (fun acc x => insertByBet x acc) []

/-- Ascending insertion for integer levels (sort((a, b) => a - b)). -/
def insertAsc (x : Int) : List Int → List Int
  | [] => [x]
  | y :: ys => if x < y then x :: y :: ys else y :: insertAsc x ys

/-- Ascending sort of integers. -/
def sortIntAsc (l : List Int) : List Int :=
  l.foldl (fun acc x => insertAsc x acc) []

/-- The level loop of calculateSidePots.  A level with increment ≤ 0 is
skipped without updating previousBet (the source continue skips that
assignment); a layer is pushed only when its amount is positive and its
eligible list nonempty. -/
def sidePotsLoop (contributors : List Contributor) :
    List Int → Int → List SidePot
  | [], _ => []
  | level :: rest, previousBet =>
      let increment := level - previousBet
      if increment ≤ 0 then sidePotsLoop contributors rest previousBet
      else
        let potContributors := contributors.filter
          (fun c => decide (level ≤ c.totalBet))
        let potAmount := increment * potContributors.length
        let eligible := (potContributors.filter (fun c =>
            decide (c.status = PlayerStatus.active) ||
            decide (c.status = PlayerStatus.all_in))).map Contributor.agentId
        let tail := sidePotsLoop contributors rest level
        if 0 < potAmount ∧ eligible ≠ [] then
          { amount := potAmount, eligible := eligible } :: tail
        else tail

/-- The contributors list of calculateSidePots: every player with a
positive hand total, projected to (agentId, totalBet, status) and stably
sorted by ascending total bet. -/
def contributorsOf (state : TableState) : List Contributor :=
  sortByBet ((state.players.filter (fun p => decide (0 < p.totalBet))).map
    (fun p => Contributor.mk p.agentId p.totalBet p.status))

/-- calculateSidePots from game.ts. -/
def calculateSidePots (state : TableState) : List SidePot :=
  let contributors := contributorsOf state
  let betLevels := sortIntAsc (dedupFirst (contributors.map Contributor.totalBet))
  sidePotsLoop contributors betLevels 0

/-- Lookup in the evaluations map of resolveHand.  A JavaScript Map keyed
by agentId keeps the last insertion for a key, hence the getLast?. -/
def lookupEval (evals : List (String × Option HandEvaluation))
    (id : String) : Option HandEvaluation :=
  match (evals.filter (fun e => decide (e.1 = id))).getLast? with
  | some e => e.2
  | none => none

/-- players.find(p => p.agentId === id) wrapped as a zero-or-one element
list (the source asserts the result non-null with !; the ids looked up are
always drawn from the same players list, so the none case is unreachable). -/
def playersFind (ps : List Player) (id : String) : List Player :=
  match ps.find? (fun p => decide (p.agentId = id)) with
  | some p => [p]
  | none => []

/-- The winner-selection loop run for one side pot in resolveHand: scan the
eligible ids, keeping the best evaluation seen and the players tied with
it, in scan order. -/
def pickWinners (players : List Player)
    (evals : List (String × Option HandEvaluation)) (eligible : List String) :
    Option HandEvaluation × List Player :=
  eligible.foldl
    (fun acc eligibleId =>
      match lookupEval evals eligibleId with
      | none => acc
      | some ev =>
        match acc.1 with
        | none => (some ev, playersFind players eligibleId)
        | some bestEval =>
          if 0 < compareHands ev bestEval then
            (some ev, playersFind players eligibleId)
          else if compareHands ev bestEval = 0 then
            (acc.1, acc.2 ++ playersFind players eligibleId)
          else acc)
    (none, [])

/-- The award step for one side pot in resolveHand: each winner receives
floor(amount / winners), and the winner at index 0 of the winner list also
receives the indivisible remainder. -/
def awardPot (players : List Player)
    (evals : List (String × Option HandEvaluation)) (pot : SidePot) :
    List Player :=
  let potWinners := (pickWinners players evals pot.eligible).2
  if potWinners.length = 0 then players
  else
    let share := jsFloorDiv pot.amount potWinners.length
    let remainder := pot.amount - share * potWinners.length
    players.map (fun p =>
      match potWinners.findIdx? (fun w => decide (w.agentId = p.agentId)) with
      | some winnerIdx =>
          { p with chips := p.chips + share +
              (if winnerIdx = 0 then remainder else 0) }
      | none => p)

/-- Accumulator of the pot-award loop of resolveHand. -/
structure AwardAcc where
  players : List Player
  mainWinnerId : String
  mainWinnerName : String
  mainWinningHand : String
deriving Repr

/-- The pot-award loop of resolveHand: award every side pot in order,
remembering the first pot's first winner as the main winner. -/
def awardPots (evals : List (String × Option HandEvaluation))
    (pots : List SidePot) (initPlayers : List Player) : AwardAcc :=
  pots.foldl
    (fun acc pot =>
      let pw := pickWinners acc.players evals pot.eligible
      if pw.2.length = 0 then acc
      else
        let newPlayers := awardPot acc.players evals pot
        if acc.mainWinnerId = "" then
          { players := newPlayers,
            mainWinnerId := ((pw.2.head?).map Player.agentId).getD "",
            mainWinnerName := ((pw.2.head?).map Player.name).getD "",
            mainWinningHand := ((pw.1).map HandEvaluation.description).getD "" }
        else { acc with players := newPlayers })
    { players := initPlayers, mainWinnerId := "", mainWinnerName := "",
      mainWinningHand := "" }

/-- resolveHand from game.ts.  Total: the only element accesses are guarded
in the source exactly as here. -/
def resolveHand (state : TableState) (now : Int) : TableState :=
  match getActivePlayers state with
  | [w] =>
      -- everyone else folded: the last non-folded player takes the pot
      let winnerId := w.agentId
      let winnerName := w.name
      let winningHandDesc := "Last player standing"
      let players := state.players.map (fun p =>
        if p.agentId = winnerId then
          { p with
            chips := p.chips + state.pot, bet := 0,
            status := PlayerStatus.active }
        else { p with bet := 0 })
      let handRecord := state.handRecord.map (fun hr =>
        { hr with
          winnerId := some winnerId, winnerName := some winnerName,
          winningHand := some winningHandDesc, endedAt := now,
          communityCards := state.communityCards })
      let lastHandResult : LastHandResult :=
        { winnerName := winnerName, winningHand := winningHandDesc,
          potWon := state.pot, handId := state.handId }
      let stillSeated := players.filter
        (fun p => decide (p.status ≠ PlayerStatus.sitting_out))
      let denom : Int := if stillSeated.length = 0 then 1 else stillSeated.length
      { state with
        phase := Phase.showdown, players := players, pot := 0,
        currentTurnIndex := -1, handRecord := handRecord,
        dealerIndex := jsMod (state.dealerIndex + 1) denom,
        lastHandResult := some lastHandResult }
  | activePlayers =>
      -- showdown with side pots
      let pots := calculateSidePots state
      let evals := activePlayers.map (fun p =>
        (p.agentId, evaluateHand (p.holeCards ++ state.communityCards)))
      let acc := awardPots evals pots state.players
      let players := acc.players.map (fun p =>
        { p with
          bet := 0,
          status := if p.status = PlayerStatus.folded then PlayerStatus.folded
                    else PlayerStatus.active })
      let handRecord := state.handRecord.map (fun hr =>
        { hr with
          winnerId := some acc.mainWinnerId,
          winnerName := some acc.mainWinnerName,
          winningHand := some acc.mainWinningHand, endedAt := now,
          communityCards := state.communityCards })
      let lastHandResult : LastHandResult :=
        { winnerName := acc.mainWinnerName,
          winningHand := acc.mainWinningHand,
          potWon := (state.handRecord.map HandRecord.pot).getD 0,
          handId := state.handId }
      let stillSeated := players.filter
        (fun p => decide (p.status ≠ PlayerStatus.sitting_out))
      let denom : Int := if stillSeated.length = 0 then 1 else stillSeated.length
      { state with
        phase := Phase.showdown, players := players, pot := 0,
        currentTurnIndex := -1, handRecord := handRecord,
        dealerIndex := jsMod (state.dealerIndex + 1) denom,
        lastHandResult := some lastHandResult }

/-- advancePhase from game.ts, with an explicit recursion budget.  The
source recursion strictly advances the phase (preflop, flop, turn, river,
then resolveHand), so from any input the depth is at most 4 and the budget
4 used by advancePhase is never exhausted; the fuel-0 case is dead. -/
def advancePhaseFuel : Nat → TableState → Int → Option TableState
  | 0, _, _ => none
  | fuel + 1, state, now =>
    let newState0 : TableState := { state with
      players := state.players.map (fun p =>
        { p with bet := 0, hasActed := decide (p.status ≠ PlayerStatus.active) }),
      currentBet := 0 }
    match state.phase with
    | Phase.river => some (resolveHand newState0 now)
    | Phase.waiting => some newState0
    | Phase.showdown => some newState0
    | ph =>
      let cnt : Nat := if ph = Phase.preflop then 3 else 1
      let nextPhase : Phase :=
        if ph = Phase.preflop then Phase.flop
        else if ph = Phase.flop then Phase.turn else Phase.river
      let r := dealCards state.deck cnt
      let communityCards := state.communityCards ++ r.1
      let handRecord := newState0.handRecord.map
        (fun hr => { hr with communityCards := communityCards })
      let actionPlayers := newState0.players.filter
        (fun p => decide (p.status = PlayerStatus.active))
      let newState : TableState := { newState0 with
        phase := nextPhase,
        communityCards := communityCards, deck := r.2,
        handRecord := handRecord, lastActionTime := now }
      if actionPlayers.length ≤ 1 then advancePhaseFuel fuel newState now
      else
        let len : Int := newState.players.length
        let firstActor := jsMod (state.dealerIndex + 1) len
        (moveLoop newState.players firstActor newState.players.length).map
          (fun fa => { newState with currentTurnIndex := fa })

/-- advancePhase from game.ts (see advancePhaseFuel). -/
def advancePhase (state : TableState) (now : Int) : Option TableState :=
  advancePhaseFuel 4 state now

/-- Result of processAction: either the next state or the error message the
source returns as an error object. -/
inductive ActResult
  | ok (state : TableState)
  | err (msg : String)
deriving DecidableEq, Repr

/-- players.findIndex(p => p.agentId === agentId). -/
def findIndexP (ps : List Player) (agentId : String) : Int :=
  match ps.findIdx? (fun p => decide (p.agentId = agentId)) with
  | some n => (n : Int)
  | none => -1

/-- The shared tail of processAction after the action switch: mark the
player acted, write them back, log the action, then resolve, advance the
phase, or pass the turn. -/
def finishAction (state : TableState) (playerIndex : Int)
    (playersBase : List Player) (updated : Player) (pot currentBet : Int)
    (recAmount : Int) (agentId : String) (action : ActionType) (now : Int) :
    Option ActResult :=
  let updated2 := { updated with hasActed := true }
  let players := playersBase.set playerIndex.toNat updated2
  let newState0 : TableState :=
    { state with players := players, pot := pot, currentBet := currentBet }
  let gameAction : GameAction :=
    { agentId := agentId, action := action, amount := recAmount,
      timestamp := now }
  let newState : TableState :=
    match newState0.handRecord with
    | some hr => { newState0 with
        handRecord := some { hr with
          actions := hr.actions ++ [gameAction], pot := newState0.pot } }
    | none => newState0
  let activePlayers := getActivePlayers newState
  if activePlayers.length = 1 then some (ActResult.ok (resolveHand newState now))
  else
    let actionPlayers := getActionPlayers newState
    let allActed := actionPlayers.all (fun p => p.hasActed)
    let allMatched := actionPlayers.all (fun p =>
      decide (p.bet = newState.currentBet) ||
      decide (p.status = PlayerStatus.all_in))
    if allActed && allMatched then (advancePhase newState now).map ActResult.ok
    else
      (moveToNextPlayer newState).map
        (fun ns => ActResult.ok { ns with lastActionTime := now })

/-- processAction from game.ts.  The optional amount models the optional
JavaScript argument; a provided amount of 0 falls back to 2 × currentBet
exactly as the source expression amount || state.currentBet * 2 does. -/
def processAction (state : TableState) (agentId : String)
    (action : ActionType) (amount : Option Int) (now : Int) :
    Option ActResult :=
  let playerIndex := findIndexP state.players agentId
  if playerIndex = -1 then some (ActResult.err "Not at this table")
  else if state.currentTurnIndex ≠ playerIndex then
    some (ActResult.err "Not your turn")
  else if state.phase = Phase.waiting ∨ state.phase = Phase.showdown then
    some (ActResult.err "No active hand")
  else
    match getP state.players playerIndex with
    | none => none
    | some player =>
      if player.status ≠ PlayerStatus.active then
        some (ActResult.err "Cannot act (folded or all-in)")
      else
        match action with
        | ActionType.fold =>
            finishAction state playerIndex state.players
              { player with status := PlayerStatus.folded }
              state.pot state.currentBet 0 agentId action now
        | ActionType.check =>
            if player.bet < state.currentBet then
              some (ActResult.err
                "Cannot check — there is a bet to match. Call, raise, or fold.")
            else
              finishAction state playerIndex state.players player
                state.pot state.currentBet 0 agentId action now
        | ActionType.call =>
            let callAmount := min (state.currentBet - player.bet) player.chips
            let chips := player.chips - callAmount
            let updated : Player :=
              { player with
                chips := chips, bet := player.bet + callAmount,
                totalBet := player.totalBet + callAmount,
                status := if chips = 0 then PlayerStatus.all_in
                          else player.status }
            finishAction state playerIndex state.players updated
              (state.pot + callAmount) state.currentBet callAmount
              agentId action now
        | ActionType.raise =>
            let raiseAmount :=
              match amount with
              | some a => if a = 0 then state.currentBet * 2 else a
              | none => state.currentBet * 2
            let totalNeeded := raiseAmount - player.bet
            if player.chips < totalNeeded then
              some (ActResult.err ("Not enough chips. You have " ++
                toString player.chips ++ ", need " ++ toString totalNeeded))
            else if raiseAmount < state.currentBet * 2 ∧
                totalNeeded < player.chips then
              some (ActResult.err ("Minimum raise is " ++
                toString (state.currentBet * 2)))
            else
              let chips := player.chips - totalNeeded
              let updated : Player :=
                { player with
                  chips := chips, bet := player.bet + totalNeeded,
                  totalBet := player.totalBet + totalNeeded,
                  status := if chips = 0 then PlayerStatus.all_in
                            else player.status }
              let playersBase := state.players.map (fun p =>
                if p.agentId = agentId then p
                else { p with hasActed :=
                  if p.status ≠ PlayerStatus.active then p.hasActed
                  else false })
              finishAction state playerIndex playersBase updated
                (state.pot + totalNeeded) raiseAmount raiseAmount
                agentId action now
        | ActionType.all_in =>
            let allInAmount := player.chips
            let updated : Player :=
              { player with
                bet := player.bet + allInAmount,
                totalBet := player.totalBet + allInAmount, chips := 0,
                status := PlayerStatus.all_in }
            let raisesBet := state.currentBet < updated.bet
            let playersBase :=
              if raisesBet then
                state.players.map (fun p =>
                  if p.agentId = agentId then p
                  else { p with hasActed :=
                    if p.status ≠ PlayerStatus.active then p.hasActed
                    else false })
              else state.players
            let currentBet :=
              if raisesBet then updated.bet else state.currentBet
            finishAction state playerIndex playersBase updated
              (state.pot + allInAmount) currentBet updated.bet
              agentId action now

/-- handleTimeout from game.ts, with Date.now() passed in as now. -/
def handleTimeout (state : TableState) (now : Int) : Option TableState :=
  if state.phase = Phase.waiting ∨ state.phase = Phase.showdown then some state
  else if state.currentTurnIndex < 0 then some state
  else if now - state.lastActionTime < state.actionTimeoutMs then some state
  else
    match getP state.players state.currentTurnIndex with
    | none => some state
    | some player =>
      if player.status ≠ PlayerStatus.active then some state
      else
        match processAction state player.agentId ActionType.fold none now with
        | none => none
        | some (ActResult.err _) => some state
        | some (ActResult.ok result) => some result

/-- getAgentView from game.ts, with Date.now() passed in as now. -/
def getAgentView (state : TableState) (agentId : String) (now : Int) :
    AgentTableView :=
  let player := state.players.find? (fun p => decide (p.agentId = agentId))
  let isYourTurn := decide (0 ≤ state.currentTurnIndex) &&
    (match getP state.players state.currentTurnIndex with
     | some tp => decide (tp.agentId = agentId)
     | none => false)
  let availableActions : List ActionType :=
    if isYourTurn &&
        (match player with
         | some p => decide (p.status = PlayerStatus.active)
         | none => false) then
      [ActionType.fold] ++
      (if state.currentBet ≤ (player.map Player.bet).getD 0 then
        [ActionType.check]
      else [ActionType.call]) ++
      (if state.currentBet - (player.map Player.bet).getD 0 <
          (player.map Player.chips).getD 0 then [ActionType.raise] else []) ++
      [ActionType.all_in]
    else []
  let turnPlayer :=
    if 0 ≤ state.currentTurnIndex then getP state.players state.currentTurnIndex
    else none
  { handId := state.handId,
    phase := state.phase,
    yourCards := (player.map Player.holeCards).getD [],
    communityCards := state.communityCards,
    pot := state.pot,
    currentBet := state.currentBet,
    yourChips := (player.map Player.chips).getD 0,
    yourBet := (player.map Player.bet).getD 0,
    isYourTurn := isYourTurn,
    turn := turnPlayer.map Player.agentId,
    timeLeftMs := state.actionTimeoutMs - (now - state.lastActionTime),
    players := state.players.map (fun p =>
      { id := p.agentId, name := p.name, chips := p.chips,
        status := p.status, bet := p.bet }),
    recentChat :=
      match state.handRecord with
      | some hr => hr.chat.drop (hr.chat.length - 10)
      | none => [],
    availableActions := availableActions }

/-! ## Chat sanitizer (src/security/sanitizer.ts)

JavaScript strings are sequences of UTF-16 code units; they are modelled
here as List Char, with .length as list length.  Special characters are
compared through their code points to keep the embedding explicit.
Case-insensitive matching is modelled as ASCII case folding (the regular
expressions involved contain only ASCII literals). -/

/-- The control characters stripped first: U+0000..U+0008, U+000B, U+000C,
U+000E..U+001F and U+007F. -/
def isControlChar (c : Char) : Bool :=
  let n := c.toNat
  decide (n ≤ 0x08) || decide (n = 0x0B) || decide (n = 0x0C) ||
  (decide (0x0E ≤ n) && decide (n ≤ 0x1F)) || decide (n = 0x7F)

/-- The JavaScript regular-expression whitespace class (the set matched by
a backslash-s atom, also used by String.prototype.trim). -/
def isJsSpace (c : Char) : Bool :=
  let n := c.toNat
  decide (n = 9) || decide (n = 10) || decide (n = 11) || decide (n = 12) ||
  decide (n = 13) || decide (n = 32) || decide (n = 0xA0) ||
  decide (n = 0x1680) || (decide (0x2000 ≤ n) && decide (n ≤ 0x200A)) ||
  decide (n = 0x2028) || decide (n = 0x2029) || decide (n = 0x202F) ||
  decide (n = 0x205F) || decide (n = 0x3000) || decide (n = 0xFEFF)

/-- Flush a pending whitespace run: a run of three or more whitespace
characters becomes two spaces, shorter runs are kept as they are. -/
def emitRun (run : List Char) : List Char :=
  if 3 ≤ run.length then [' ', ' '] else run

/-- Worker for the whitespace collapse: run holds the pending maximal
whitespace run. -/
def collapseGo (run : List Char) : List Char → List Char
  | [] => emitRun run
  | c :: rest =>
      if isJsSpace c then collapseGo (run ++ [c]) rest
      else emitRun run ++ c :: collapseGo [] rest

/-- Collapse every maximal whitespace run of length ≥ 3 to two spaces
(the global replacement of three-or-more whitespace by two spaces). -/
def collapseWs (l : List Char) : List Char := collapseGo [] l

/-- String.prototype.trim: drop leading and trailing whitespace. -/
def jsTrim (l : List Char) : List Char :=
  ((l.dropWhile isJsSpace).reverse.dropWhile isJsSpace).reverse

/-- The regular-expression word class: ASCII letters, digits, underscore. -/
def isWordChar (c : Char) : Bool :=
  (decide ('a' ≤ c) && decide (c ≤ 'z')) ||
  (decide ('A' ≤ c) && decide (c ≤ 'Z')) ||
  (decide ('0' ≤ c) && decide (c ≤ '9')) || decide (c = '_')

/-- Try to read, after an opening bracket, an optional slash, one or more
word characters and a closing bracket; return the remainder on success
(one match of the bracketed-tag pattern). -/
def parseTag (l : List Char) : Option (List Char) :=
  let l1 := match l with
    | c :: t => if c.toNat = 47 then t else c :: t
    | [] => []
  let w := l1.takeWhile isWordChar
  let r := l1.dropWhile isWordChar
  if w.isEmpty then none
  else match r with
    | c :: t => if c.toNat = 93 then some t else none
    | [] => none

theorem parseTag_length {l t : List Char} (h : parseTag l = some t) :
    t.length < l.length := by
  unfold parseTag at h
  rcases l with _ | ⟨c, l⟩
  · simp at h
  · by_cases hc : c.toNat = 47 <;> simp [hc] at h
    · rcases h1 : List.dropWhile isWordChar l with _ | ⟨d, r⟩ <;>
        simp [h1] at h
      obtain ⟨-, -, ht⟩ := h
      subst ht
      have hs := (List.dropWhile_suffix (l := l) isWordChar).length_le
      rw [h1] at hs
      simp only [List.length_cons] at hs ⊢
      omega
    · rcases h1 : List.dropWhile isWordChar (c :: l) with _ | ⟨d, r⟩ <;>
        simp [h1] at h
      obtain ⟨-, -, ht⟩ := h
      subst ht
      have hs := (List.dropWhile_suffix (l := c :: l) isWordChar).length_le
      rw [h1] at hs
      simp only [List.length_cons] at hs ⊢
      omega

/-- The global bracketed-tag removal, with an explicit step budget: scan
left to right, removing each match of an opening bracket, optional slash,
word characters and a closing bracket; a non-matching opening bracket is
kept and scanning resumes after it.  Every step consumes at least one
character, so a budget of the input length never runs out. -/
def stripTagsF : Nat → List Char → List Char
  | _, [] => []
  | 0, l => l
  | fuel + 1, c :: rest =>
    if c.toNat = 91 then
      match parseTag rest with
      | some rest2 => stripTagsF fuel rest2
      | none => c :: stripTagsF fuel rest
    else c :: stripTagsF fuel rest

/-- The global bracketed-tag removal of sanitizeChat. -/
def stripTags (l : List Char) : List Char := stripTagsF l.length l

/-- ASCII lower-casing of one character (model of case-insensitive
matching). -/
def lowerCh (c : Char) : Char := c.toLower

/-- Match a lowercase needle against the head of the haystack,
case-insensitively; return the remainder. -/
def startsWithLower : List Char → List Char → Option (List Char)
  | [], l => some l
  | _ :: _, [] => none
  | w :: ws, c :: cs =>
      if lowerCh c = w then startsWithLower ws cs else none

/-- One word-boundary-delimited match attempt at the current position:
the needle matches case-insensitively, the previous character (if any) is
not a word character, and the character after the match (if any) is not a
word character. -/
def matchBoundedAt (needle : List Char) (prev : Option Char)
    (l : List Char) : Bool :=
  match startsWithLower needle l with
  | none => false
  | some rest =>
    (match prev with
     | none => true
     | some p => ¬ isWordChar p) &&
    (match rest with
     | [] => true
     | r :: _ => ¬ isWordChar r)

/-- Scan for a word-boundary-delimited, case-insensitive occurrence of any
needle. -/
def scanBounded (needles : List (List Char)) :
    Option Char → List Char → Bool
  | _, [] => false
  | prev, c :: rest =>
    needles.any (fun w => matchBoundedAt w prev (c :: rest)) ||
    scanBounded needles (some c) rest

/-- A word-boundary-delimited, case-insensitive alternative pattern. -/
def containsBounded (needles : List (List Char)) (l : List Char) : Bool :=
  scanBounded needles none l

/-- Case-insensitive substring search for any needle. -/
def containsSubCI (needles : List (List Char)) : List Char → Bool
  | [] => false
  | c :: rest =>
    needles.any (fun w => (startsWithLower w (c :: rest)).isSome) ||
    containsSubCI needles rest

/-- Does the haystack start with the given code-point sequence? -/
def startsWithCodes : List Nat → List Char → Bool
  | [], _ => true
  | _ :: _, [] => false
  | n :: ns, c :: cs => decide (c.toNat = n) && startsWithCodes ns cs

/-- Find the first occurrence of the code sequence; return the remainder
after it. -/
def subSearch (needle : List Nat) : List Char → Option (List Char)
  | [] => if startsWithCodes needle [] then some [] else none
  | c :: rest =>
    if startsWithCodes needle (c :: rest) then
      some ((c :: rest).drop needle.length)
    else subSearch needle rest

/-- An opening delimiter followed (anything in between) by a closing
delimiter, the shape of the fence, double-brace and double-angle
patterns. -/
def hasPairPattern (opening closing : List Nat) (l : List Char) : Bool :=
  match subSearch opening l with
  | some rest => (subSearch closing rest).isSome
  | none => false

/-- The XML-tag-like pattern: an angle bracket, an optional slash, an
ASCII letter, then a closing angle bracket anywhere later. -/
def hasXmlTag : List Char → Bool
  | [] => false
  | c :: rest =>
    (decide (c.toNat = 60) &&
      (let r1 := match rest with
        | d :: t => if d.toNat = 47 then t else d :: t
        | [] => []
       match r1 with
       | a :: t =>
         (decide ('a' ≤ lowerCh a) && decide (lowerCh a ≤ 'z')) &&
           t.any (fun x => decide (x.toNat = 62))
       | [] => false)) ||
    hasXmlTag rest

/-- The role-leak word list of INJECTION_PATTERNS. -/
def rolePatterns : List (List Char) :=
  (["system", "instruction", "ignore", "override", "admin", "debug",
    "reveal", "sudo"]).map String.toList

/-- The meta-phrase list of INJECTION_PATTERNS. -/
def metaPatterns : List (List Char) :=
  (["previous prompt", "new instructions", "you are now", "act as"]).map
    String.toList

/-- The dismissal-phrase list of INJECTION_PATTERNS. -/
def overridePatterns : List (List Char) :=
  (["ignore all", "forget everything", "disregard", "override your"]).map
    String.toList

/-- The bracketed role labels of INJECTION_PATTERNS (with and without the
slash), matched case-insensitively as plain substrings. -/
def roleTagPatterns : List (List Char) :=
  (["[system]", "[/system]", "[inst]", "[/inst]", "[user]", "[/user]",
    "[assistant]", "[/assistant]", "[tool]", "[/tool]"]).map String.toList

/-- Does any of the eight INJECTION_PATTERNS match? -/
def injectionMatch (l : List Char) : Bool :=
  containsBounded rolePatterns l ||
  containsBounded metaPatterns l ||
  containsBounded overridePatterns l ||
  hasXmlTag l ||
  containsSubCI roleTagPatterns l ||
  hasPairPattern [96, 96, 96] [96, 96, 96] l ||
  hasPairPattern [123, 123] [125, 125] l ||
  hasPairPattern [60, 60] [62, 62] l

/-- Result of sanitizeChat. -/
inductive ChatResult
  | ok (text : List Char)
  | rejected (reason : String)
deriving DecidableEq, Repr

/-- sanitizeChat from sanitizer.ts: strip control characters, collapse long
whitespace runs, trim, reject on emptiness or length over 280, strip angle
brackets, bracketed tags and the four markup characters, then reject when
any injection pattern matches the result. -/
def sanitizeChat (text : List Char) : ChatResult :=
  let cleaned0 := text.filter (fun c => ¬ isControlChar c)
  let cleaned1 := jsTrim (collapseWs cleaned0)
  if cleaned1.length = 0 then ChatResult.rejected "Empty message"
  else if 280 < cleaned1.length then
    ChatResult.rejected "Message too long (max 280 chars)"
  else
    let cleaned2 := cleaned1.filter
      (fun c => ¬ (decide (c.toNat = 60) || decide (c.toNat = 62)))
    let cleaned3 := stripTags cleaned2
    let cleaned4 := cleaned3.filter
      (fun c => ¬ (decide (c.toNat = 96) || decide (c.toNat = 126) ||
        decide (c.toNat = 124) || decide (c.toNat = 92)))
    if injectionMatch cleaned4 then ChatResult.rejected "Message filtered"
    else ChatResult.ok cleaned4

/-! ## Claim C9: the deal contract -/

/-- **C9 counterexample**: the claim states that deal fails with a
DeckExhausted error whenever n exceeds the deck size.  dealCards has no
failure mode at all: on the empty deck with n = 1 it returns successfully
with no cards dealt and an empty remainder (the source slices clamp). -/
theorem C9_dealCards_counterexample :
    dealCards ([] : List Card) 1 = ([], []) := rfl

/-- **C9** (amended): dealCards deck n returns the length-n prefix of the
deck as the dealt cards and the tail as the remaining deck, never
reordering or losing a card; it never fails, and when n exceeds the deck
size it deals the whole deck and leaves an empty remainder. -/
theorem C9_dealCards_contract (deck : List Card) (n : Nat) :
    (dealCards deck n).1 = deck.take n ∧
    (dealCards deck n).2 = deck.drop n ∧
    (dealCards deck n).1 ++ (dealCards deck n).2 = deck ∧
    (dealCards deck n).1.length = min n deck.length ∧
    (deck.length < n → dealCards deck n = (deck, [])) := by
  refine ⟨rfl, rfl, List.take_append_drop n deck, List.length_take n deck, ?_⟩
  intro h
  unfold dealCards
  rw [List.take_of_length_le (le_of_lt h), List.drop_eq_nil_of_le (le_of_lt h)]

/-- Witness for C9_dealCards_contract at the empty deck and n = 1. -/
theorem C9_dealCards_contract_witness :
    ([] : List Card).length < 1 ∧ dealCards ([] : List Card) 1 = ([], []) :=
  ⟨by decide, (C9_dealCards_contract [] 1).2.2.2.2 (by decide)⟩

/-! ## Claim C6: hole-card visibility -/

/-- All cards appearing anywhere in an agent view: the only card-carrying
fields of AgentTableView are yourCards and communityCards (PublicPlayerInfo,
mirroring the source type, has no card field). -/
def cardsInView (v : AgentTableView) : List Card :=
  v.yourCards ++ v.communityCards

/-- **C6**: the view built for agent b never contains a hole card c of
another agent: if c is not among the community cards and not held by any
seated player whose agentId is b (which the no-duplication invariant
guarantees whenever c is another agent's hole card), then c appears nowhere
in getAgentView state b.  This holds in every phase, in particular outside
showdown; moreover yourCards is exactly the requesting agent's own
holeCards. -/
theorem C6_hole_cards_hidden (state : TableState) (b : String) (now : Int)
    (c : Card)
    (hcomm : c ∉ state.communityCards)
    (hb : ∀ q ∈ state.players, q.agentId = b → c ∉ q.holeCards) :
    c ∉ cardsInView (getAgentView state b now) ∧
    (getAgentView state b now).yourCards =
      ((state.players.find? (fun p => decide (p.agentId = b))).map
        Player.holeCards).getD [] := by
  constructor
  · intro hmem
    rw [cardsInView] at hmem
    rcases List.mem_append.mp hmem with hy | hc
    · have hy2 : c ∈ ((state.players.find? (fun p =>
          decide (p.agentId = b))).map Player.holeCards).getD [] := hy
      rcases hfind : state.players.find? (fun p => decide (p.agentId = b)) with
        _ | q
      · rw [hfind] at hy2
        simp at hy2
      · rw [hfind] at hy2
        simp only [Option.map, Option.getD] at hy2
        have hqmem : q ∈ state.players := List.mem_of_find?_eq_some hfind
        have hqid : q.agentId = b := by
          have := List.find?_some hfind
          exact of_decide_eq_true this
        exact hb q hqmem hqid hy2
    · exact hcomm hc
  · rfl

/-- Witness for C6_hole_cards_hidden: a two-player table where A holds the
ace of hearts; B's view does not contain it. -/
def c6State : TableState :=
  { tableId := "t", handId := "h", phase := Phase.flop,
    players :=
      [{ agentId := "A", name := "A", chips := 100,
         holeCards := [⟨Rank.rA, Suit.h⟩, ⟨Rank.rK, Suit.h⟩], bet := 0,
         totalBet := 20, status := PlayerStatus.active, seatIndex := 0,
         hasActed := false, sitOutCount := 0 },
       { agentId := "B", name := "B", chips := 100,
         holeCards := [⟨Rank.r2, Suit.c⟩, ⟨Rank.r3, Suit.c⟩], bet := 0,
         totalBet := 20, status := PlayerStatus.active, seatIndex := 1,
         hasActed := false, sitOutCount := 0 }],
    communityCards := [⟨Rank.r7, Suit.d⟩, ⟨Rank.r8, Suit.d⟩, ⟨Rank.r9, Suit.d⟩],
    pot := 40, currentBet := 0, currentTurnIndex := 0, dealerIndex := 0,
    smallBlind := 10, bigBlind := 20, deck := [], handRecord := none,
    lastActionTime := 0, actionTimeoutMs := 15000, lastHandResult := none }

/-- Witness applying C6_hole_cards_hidden at a concrete state. -/
theorem C6_hole_cards_hidden_witness :
    (⟨Rank.rA, Suit.h⟩ : Card) ∉ cardsInView (getAgentView c6State "B" 0) :=
  (C6_hole_cards_hidden c6State "B" 0 ⟨Rank.rA, Suit.h⟩ (by decide)
    (by decide)).1

/-! ## Claim C5: the min-raise law -/

/-- **C5**: with the action preconditions satisfied (agent seated at index
j, it is their turn, an active phase, player active) and a nonzero raise
amount a: a raise whose required contribution a - bet exceeds the player's
chips is rejected with the insufficient-chips error; a below-minimum raise
(a < 2 × currentBet) that is not an all-in is rejected with the
below-min-raise error; in both cases only an error object is returned, the
state unchanged.  Conversely a raise that is not rejected satisfies
a ≥ 2 × currentBet or is an exact all-in (contribution = chips). -/
theorem C5_min_raise_law (state : TableState) (agentId : String) (a : Int)
    (now : Int) (j : Nat) (player : Player)
    (hfind : state.players.findIdx? (fun p => decide (p.agentId = agentId)) =
      some j)
    (hturn : state.currentTurnIndex = (j : Int))
    (hph1 : state.phase ≠ Phase.waiting) (hph2 : state.phase ≠ Phase.showdown)
    (hget : state.players.get? j = some player)
    (hactive : player.status = PlayerStatus.active)
    (ha : a ≠ 0) :
    (player.chips < a - player.bet →
      processAction state agentId ActionType.raise (some a) now =
        some (ActResult.err ("Not enough chips. You have " ++
          toString player.chips ++ ", need " ++ toString (a - player.bet)))) ∧
    (a - player.bet ≤ player.chips → a < state.currentBet * 2 →
      a - player.bet < player.chips →
      processAction state agentId ActionType.raise (some a) now =
        some (ActResult.err ("Minimum raise is " ++
          toString (state.currentBet * 2)))) ∧
    ((∀ msg, processAction state agentId ActionType.raise (some a) now ≠
        some (ActResult.err msg)) →
      state.currentBet * 2 ≤ a ∨ a - player.bet = player.chips) := by
  have hidx : findIndexP state.players agentId = (j : Int) := by
    unfold findIndexP
    rw [hfind]
  have hne : ¬ ((j : Int) = -1) := by omega
  have htoNat : ((j : Int)).toNat = j := Int.toNat_ofNat j
  have hgetP : getP state.players ((j : Int)) = some player := by
    unfold getP
    rw [if_neg (by omega), htoNat, hget]
  have hphase : ¬ (state.phase = Phase.waiting ∨ state.phase = Phase.showdown) := by
    rintro (h | h)
    · exact hph1 h
    · exact hph2 h
  unfold processAction
  rw [hidx, if_neg hne, if_neg (by rw [hturn]; exact fun h => h rfl),
    if_neg hphase, hgetP]
  simp only [hactive, ha, ne_eq, not_true_eq_false, not_false_eq_true,
    ite_true, ite_false, if_true, if_false]
  refine ⟨?_, ?_, ?_⟩
  · intro h
    rw [if_pos h]
  · intro h1 h2 h3
    rw [if_neg (not_lt.mpr h1), if_pos ⟨h2, h3⟩]
  · intro hnoerr
    by_contra hcon
    push_neg at hcon
    obtain ⟨hlt, hne2⟩ := hcon
    by_cases hover : player.chips < a - player.bet
    · exact hnoerr _ (by rw [if_pos hover])
    · exact hnoerr _ (by
        rw [if_neg hover, if_pos ⟨hlt, by omega⟩])

/-- Concrete state for the C5 witness: two players, B to act facing a
current bet of 20. -/
def c5State : TableState :=
  { tableId := "t", handId := "h", phase := Phase.preflop,
    players :=
      [{ agentId := "A", name := "A", chips := 80,
         holeCards := [⟨Rank.rA, Suit.h⟩, ⟨Rank.rK, Suit.h⟩], bet := 20,
         totalBet := 20, status := PlayerStatus.active, seatIndex := 0,
         hasActed := false, sitOutCount := 0 },
       { agentId := "B", name := "B", chips := 90,
         holeCards := [⟨Rank.r2, Suit.c⟩, ⟨Rank.r3, Suit.c⟩], bet := 10,
         totalBet := 10, status := PlayerStatus.active, seatIndex := 1,
         hasActed := false, sitOutCount := 0 }],
    communityCards := [], pot := 30, currentBet := 20, currentTurnIndex := 1,
    dealerIndex := 0, smallBlind := 10, bigBlind := 20, deck := [],
    handRecord := none, lastActionTime := 0, actionTimeoutMs := 15000,
    lastHandResult := none }

/-- Witness applying C5_min_raise_law at c5State: B raising to 30 (below
the minimum 40, not an all-in) is rejected with the below-min-raise
error. -/
theorem C5_min_raise_law_witness :
    processAction c5State "B" ActionType.raise (some 30) 0 =
      some (ActResult.err ("Minimum raise is " ++ toString ((20 : Int) * 2))) :=
  (C5_min_raise_law c5State "B" 30 0 1
      { agentId := "B", name := "B", chips := 90,
        holeCards := [⟨Rank.r2, Suit.c⟩, ⟨Rank.r3, Suit.c⟩], bet := 10,
        totalBet := 10, status := PlayerStatus.active, seatIndex := 1,
        hasActed := false, sitOutCount := 0 }
      (by decide) (by decide) (by decide) (by decide) (by decide) (by decide)
      (by decide)).2.1 (by decide) (by decide) (by decide)

/-! ## Claim C3: side-pot layering

Supporting lemmas about the insertion sorts and the dedup used by
calculateSidePots. -/

theorem insertAsc_perm (x : Int) (l : List Int) : (insertAsc x l).Perm (x :: l) := by
  induction l with
  | nil => exact List.Perm.refl _
  | cons y ys ih =>
    unfold insertAsc
    by_cases h : x < y
    · rw [if_pos h]
    · rw [if_neg h]
      exact (List.Perm.cons y ih).trans (List.Perm.swap x y ys)

theorem foldl_insertAsc_perm (l acc : List Int) :
    (l.foldl (fun a x => insertAsc x a) acc).Perm (acc ++ l) := by
  induction l generalizing acc with
  | nil => simp
  | cons x xs ih =>
    simp only [List.foldl_cons]
    refine (ih (insertAsc x acc)).trans ?_
    refine (((insertAsc_perm x acc).append_right xs).trans ?_)
    exact List.perm_middle.symm

theorem sortIntAsc_perm (l : List Int) : (sortIntAsc l).Perm l := by
  simpa using foldl_insertAsc_perm l []

theorem insertAsc_sorted (x : Int) (l : List Int)
    (h : l.Sorted (· ≤ ·)) : (insertAsc x l).Sorted (· ≤ ·) := by
  induction l with
  | nil => simp [insertAsc]
  | cons y ys ih =>
    rw [List.sorted_cons] at h
    obtain ⟨hy, hys⟩ := h
    unfold insertAsc
    by_cases hlt : x < y
    · rw [if_pos hlt, List.sorted_cons]
      refine ⟨?_, List.sorted_cons.mpr ⟨hy, hys⟩⟩
      intro b hb
      rcases List.mem_cons.mp hb with rfl | hb
      · exact le_of_lt hlt
      · exact le_trans (le_of_lt hlt) (hy b hb)
    · rw [if_neg hlt, List.sorted_cons]
      refine ⟨?_, ih hys⟩
      intro b hb
      rcases List.mem_cons.mp ((insertAsc_perm x ys).mem_iff.mp hb) with
        rfl | hb2
      · exact not_lt.mp hlt
      · exact hy b hb2

theorem sortIntAsc_sorted (l : List Int) : (sortIntAsc l).Sorted (· ≤ ·) := by
  suffices h : ∀ acc : List Int, acc.Sorted (· ≤ ·) →
      (l.foldl (fun a x => insertAsc x a) acc).Sorted (· ≤ ·) by
    exact h [] (by simp)
  induction l with
  | nil => intro acc hacc; simpa using hacc
  | cons x xs ih =>
    intro acc hacc
    simp only [List.foldl_cons]
    exact ih (insertAsc x acc) (insertAsc_sorted x acc hacc)

theorem mem_dedupSeen (a : Int) :
    ∀ (l seen : List Int), a ∈ dedupSeen seen l ↔ a ∈ l ∧ a ∉ seen := by
  intro l
  induction l with
  | nil => intro seen; simp [dedupSeen]
  | cons x xs ih =>
    intro seen
    rw [dedupSeen]
    by_cases hx : x ∈ seen
    · rw [if_pos hx, ih seen]
      constructor
      · rintro ⟨h1, h2⟩
        exact ⟨List.mem_cons_of_mem _ h1, h2⟩
      · rintro ⟨h1, h2⟩
        rcases List.mem_cons.mp h1 with rfl | h1
        · exact absurd hx h2
        · exact ⟨h1, h2⟩
    · rw [if_neg hx]
      constructor
      · intro h
        rcases List.mem_cons.mp h with rfl | h2
        · exact ⟨List.mem_cons_self _ _, hx⟩
        · obtain ⟨h3, h4⟩ := (ih (x :: seen)).mp h2
          exact ⟨List.mem_cons_of_mem _ h3,
            fun hc => h4 (List.mem_cons_of_mem _ hc)⟩
      · rintro ⟨h1, h2⟩
        rcases List.mem_cons.mp h1 with rfl | h3
        · exact List.mem_cons_self _ _
        · by_cases hax : a = x
          · subst hax
            exact List.mem_cons_self _ _
          · refine List.mem_cons_of_mem _ ((ih (x :: seen)).mpr ⟨h3, ?_⟩)
            intro hc
            rcases List.mem_cons.mp hc with h | h
            · exact hax h
            · exact h2 h

theorem mem_dedupFirst (l : List Int) (a : Int) :
    a ∈ dedupFirst l ↔ a ∈ l := by
  rw [dedupFirst, mem_dedupSeen]
  simp

theorem nodup_dedupSeen : ∀ (l seen : List Int), (dedupSeen seen l).Nodup := by
  intro l
  induction l with
  | nil => intro seen; simp [dedupSeen]
  | cons x xs ih =>
    intro seen
    rw [dedupSeen]
    by_cases hx : x ∈ seen
    · rw [if_pos hx]
      exact ih seen
    · rw [if_neg hx]
      refine List.nodup_cons.mpr ⟨?_, ih (x :: seen)⟩
      intro hc
      exact ((mem_dedupSeen x xs (x :: seen)).mp hc).2 (List.mem_cons_self _ _)

theorem nodup_dedupFirst (l : List Int) : (dedupFirst l).Nodup :=
  nodup_dedupSeen l []

theorem insertByBet_perm (x : Contributor) (l : List Contributor) :
    (insertByBet x l).Perm (x :: l) := by
  induction l with
  | nil => exact List.Perm.refl _
  | cons y ys ih =>
    unfold insertByBet
    by_cases h : x.totalBet < y.totalBet
    · rw [if_pos h]
    · rw [if_neg h]
      exact (List.Perm.cons y ih).trans (List.Perm.swap x y ys)

theorem sortByBet_perm (l : List Contributor) : (sortByBet l).Perm l := by
  suffices h : ∀ acc : List Contributor,
      (l.foldl (fun a x => insertByBet x a) acc).Perm (acc ++ l) by
    simpa using h []
  induction l with
  | nil => intro acc; simp
  | cons x xs ih =>
    intro acc
    simp only [List.foldl_cons]
    refine (ih (insertByBet x acc)).trans ?_
    refine ((insertByBet_perm x acc).append_right xs).trans ?_
    exact List.perm_middle.symm

/-- Modelled from the spec (§4.3 Resolve, step 2): let levels be the
distinct positive totals in ascending order; each consecutive pair
(prev, level) yields a layer of amount (level − prev) × (count of players
with totalBet ≥ level), whose eligible set is the players with
totalBet ≥ level and status active or all_in.  Unlike the source loop,
every layer is produced. -/
def specSidePotsLoop (contributors : List Contributor) :
    List Int → Int → List SidePot
  | [], _ => []
  | level :: rest, prev =>
      let potContributors := contributors.filter
        (fun c => decide (level ≤ c.totalBet))
      { amount := (level - prev) * potContributors.length,
        eligible := (potContributors.filter (fun c =>
          decide (c.status = PlayerStatus.active) ||
          decide (c.status = PlayerStatus.all_in))).map Contributor.agentId }
        :: specSidePotsLoop contributors rest level

/-- Modelled from the spec: the full list of side-pot layers described by
the specification, over the same contributor order as the source. -/
def specSidePots (state : TableState) : List SidePot :=
  let contributors := contributorsOf state
  let betLevels := sortIntAsc (dedupFirst (contributors.map Contributor.totalBet))
  specSidePotsLoop contributors betLevels 0

/-- On a strictly increasing level list whose members are all bet totals of
some contributor, the source loop produces exactly the spec layers with the
empty-eligible layers dropped. -/
theorem sidePotsLoop_eq_filter (contributors : List Contributor) :
    ∀ (levels : List Int) (prev : Int),
    List.Chain' (· < ·) (prev :: levels) →
    (∀ lv ∈ levels, ∃ c ∈ contributors, c.totalBet = lv) →
    sidePotsLoop contributors levels prev =
      (specSidePotsLoop contributors levels prev).filter
        (fun l => ¬ l.eligible.isEmpty)
  | [], prev, _, _ => by simp [sidePotsLoop, specSidePotsLoop]
  | level :: rest, prev, hchain, hmem => by
    have hlt : prev < level := (List.chain'_cons.mp hchain).1
    have hchain2 : List.Chain' (· < ·) (level :: rest) :=
      (List.chain'_cons.mp hchain).2
    have hmem2 : ∀ lv ∈ rest, ∃ c ∈ contributors, c.totalBet = lv :=
      fun lv hlv => hmem lv (List.mem_cons_of_mem _ hlv)
    have hcount : 1 ≤ (contributors.filter
        (fun c => decide (level ≤ c.totalBet))).length := by
      obtain ⟨c, hc, hcb⟩ := hmem level (List.mem_cons_self _ _)
      have : c ∈ contributors.filter (fun c => decide (level ≤ c.totalBet)) := by
        rw [List.mem_filter]
        exact ⟨hc, by simp [hcb]⟩
      exact List.length_pos.mpr (List.ne_nil_of_mem this)
    have hpos : 0 < (level - prev) *
        ((contributors.filter (fun c => decide (level ≤ c.totalBet))).length : Int) := by
      have h1 : (0 : Int) < level - prev := by omega
      have h2 : (0 : Int) <
          ((contributors.filter (fun c => decide (level ≤ c.totalBet))).length : Int) := by
        exact_mod_cast hcount
      positivity
    rw [sidePotsLoop, specSidePotsLoop]
    rw [if_neg (by omega)]
    have ih := sidePotsLoop_eq_filter contributors rest level hchain2 hmem2
    by_cases helig : ((contributors.filter
        (fun c => decide (level ≤ c.totalBet))).filter (fun c =>
          decide (c.status = PlayerStatus.active) ||
          decide (c.status = PlayerStatus.all_in))).map Contributor.agentId = []
    · rw [if_neg (fun hcon => hcon.2 helig), ih,
        List.filter_cons_of_neg (by dsimp only; rw [helig]; simp)]
    · rw [if_pos ⟨hpos, helig⟩, ih,
        List.filter_cons_of_pos
          (by dsimp only; simpa [List.isEmpty_iff] using helig)]

/-- **C3 counterexample**: a state with two all-in players (bet totals 20
and 50) and a folded player with bet total 200.  The spec layering yields
three layers, the last (amount 150) with an empty eligible set; the source
drops that layer, so the computed side pots are not exactly the spec
layers. -/
def c3State : TableState :=
  { tableId := "t", handId := "h", phase := Phase.river,
    players :=
      [{ agentId := "A", name := "A", chips := 100,
         holeCards := [⟨Rank.r2, Suit.c⟩, ⟨Rank.r3, Suit.c⟩], bet := 0,
         totalBet := 200, status := PlayerStatus.folded, seatIndex := 0,
         hasActed := true, sitOutCount := 0 },
       { agentId := "D", name := "D", chips := 0,
         holeCards := [⟨Rank.r8, Suit.h⟩, ⟨Rank.r9, Suit.h⟩], bet := 0,
         totalBet := 50, status := PlayerStatus.all_in, seatIndex := 1,
         hasActed := true, sitOutCount := 0 },
       { agentId := "E", name := "E", chips := 0,
         holeCards := [⟨Rank.rT, Suit.h⟩, ⟨Rank.rJ, Suit.h⟩], bet := 0,
         totalBet := 20, status := PlayerStatus.all_in, seatIndex := 2,
         hasActed := true, sitOutCount := 0 }],
    communityCards := [⟨Rank.rQ, Suit.h⟩, ⟨Rank.rK, Suit.h⟩, ⟨Rank.rA, Suit.h⟩,
      ⟨Rank.r2, Suit.d⟩, ⟨Rank.r3, Suit.d⟩],
    pot := 270, currentBet := 0, currentTurnIndex := -1, dealerIndex := 0,
    smallBlind := 10, bigBlind := 20, deck := [], handRecord := none,
    lastActionTime := 0, actionTimeoutMs := 15000, lastHandResult := none }

/-- C3 counterexample theorem: on c3State (which has two non-folded
players) the computed side pots differ from the spec layering — the source
omits the 150-chip layer whose eligible set is empty. -/
theorem C3_side_pots_counterexample :
    calculateSidePots c3State ≠ specSidePots c3State ∧
    calculateSidePots c3State =
      [{ amount := 60, eligible := ["E", "D"] },
       { amount := 60, eligible := ["D"] }] ∧
    specSidePots c3State =
      [{ amount := 60, eligible := ["E", "D"] },
       { amount := 60, eligible := ["D"] },
       { amount := 150, eligible := [] }] := by
  have h1 : calculateSidePots c3State =
      [{ amount := 60, eligible := ["E", "D"] },
       { amount := 60, eligible := ["D"] }] := by rfl
  have h2 : specSidePots c3State =
      [{ amount := 60, eligible := ["E", "D"] },
       { amount := 60, eligible := ["D"] },
       { amount := 150, eligible := [] }] := by rfl
  refine ⟨?_, h1, h2⟩
  rw [h1, h2]
  simp

/-- **C3** (amended): the side pots computed at resolution are exactly the
spec layers — for the distinct positive bet totals in ascending order,
each consecutive pair (prev, level) yields a layer of amount
(level − prev) × (number of contributors with totalBet ≥ level) whose
eligible list is the contributors with totalBet ≥ level and status active
or all_in (listed in ascending order of total bet) — except that a layer
whose eligible set is empty (all its contributors folded) is dropped by
the source; moreover a folded or sitting-out player never appears in any
eligible set. -/
theorem C3_side_pot_layering (state : TableState) :
    calculateSidePots state =
      (specSidePots state).filter (fun l => ¬ l.eligible.isEmpty) ∧
    (∀ pot ∈ calculateSidePots state, ∀ id ∈ pot.eligible,
      ∃ p ∈ state.players, p.agentId = id ∧
        (p.status = PlayerStatus.active ∨ p.status = PlayerStatus.all_in)) := by
  constructor
  · unfold calculateSidePots specSidePots
    apply sidePotsLoop_eq_filter
    · rw [List.chain'_cons']
      constructor
      · intro y hy
        have hmem := (sortIntAsc_perm _).mem_iff.mp (List.mem_of_mem_head? hy)
        have hmem2 := (mem_dedupFirst _ _).mp hmem
        obtain ⟨c, hc, hcy⟩ := List.mem_map.mp hmem2
        have hc2 := (sortByBet_perm _).mem_iff.mp
          ((by exact hc : c ∈ contributorsOf state))
        obtain ⟨p, hp, hpc⟩ := List.mem_map.mp hc2
        have hpos := (List.mem_filter.mp hp).2
        rw [← hcy, ← hpc]
        simpa using hpos
      · apply List.Pairwise.chain'
        exact List.Sorted.lt_of_le (sortIntAsc_sorted _)
          ((sortIntAsc_perm _).symm.nodup (nodup_dedupFirst _))
    · intro lv hlv
      have hmem := (sortIntAsc_perm _).mem_iff.mp hlv
      have hmem2 := (mem_dedupFirst _ _).mp hmem
      obtain ⟨c, hc, hcy⟩ := List.mem_map.mp hmem2
      exact ⟨c, hc, hcy⟩
  · intro pot hpot id hid
    unfold calculateSidePots at hpot
    have hsub : ∀ (levels : List Int) (prev : Int) (pot : SidePot),
        pot ∈ sidePotsLoop (contributorsOf state) levels prev →
        ∀ id ∈ pot.eligible, ∃ c ∈ contributorsOf state, c.agentId = id ∧
          (c.status = PlayerStatus.active ∨ c.status = PlayerStatus.all_in) := by
      intro levels
      induction levels with
      | nil =>
        intro prev pot hpot
        simp [sidePotsLoop] at hpot
      | cons lv rest ih =>
        intro prev pot hpot
        rw [sidePotsLoop] at hpot
        dsimp only at hpot
        split at hpot
        · exact ih prev pot hpot
        · split at hpot
          · rcases List.mem_cons.mp hpot with rfl | hpot2
            · intro id hid
              obtain ⟨c, hc, hcid⟩ := List.mem_map.mp hid
              have hc2 := List.mem_filter.mp hc
              have hc3 := List.mem_filter.mp hc2.1
              refine ⟨c, hc3.1, hcid, ?_⟩
              have hst := hc2.2
              simp only [Bool.or_eq_true, decide_eq_true_eq] at hst
              exact hst
            · exact ih lv pot hpot2
          · exact ih lv pot hpot
    obtain ⟨c, hc, hcid, hcst⟩ := hsub _ _ pot hpot id hid
    have hc2 := (sortByBet_perm _).mem_iff.mp hc
    obtain ⟨p, hp, hpc⟩ := List.mem_map.mp hc2
    refine ⟨p, (List.mem_filter.mp hp).1, ?_, ?_⟩
    · rw [← hcid, ← hpc]
    · rw [← hpc] at hcst
      exact hcst

/-- Witness applying C3_side_pot_layering at c3State. -/
theorem C3_side_pot_layering_witness :
    calculateSidePots c3State =
      (specSidePots c3State).filter (fun l => ¬ l.eligible.isEmpty) :=
  (C3_side_pot_layering c3State).1

/-! ## Claim C4: remainder distribution at showdown -/

/-- **C4 counterexample**: at a showdown on a board that is a royal flush
(so every non-folded hand ties), with P0 (seat 0, active, totalBet 200),
P1 (seat 1, all-in, totalBet 101) and P2 (seat 2, folded, totalBet 150),
the 303-chip main layer has winners [P1, P0] in ascending-total-bet order,
so its odd chip goes to P1 at seat 1 — not to the earliest seat (P0, seat
0) as the claim states: the claim would give final chips [300, 151, 49],
the code gives [299, 152, 49]. -/
def c4State : TableState :=
  { tableId := "t", handId := "h", phase := Phase.river,
    players :=
      [{ agentId := "P0", name := "P0", chips := 0,
         holeCards := [⟨Rank.r2, Suit.c⟩, ⟨Rank.r3, Suit.c⟩], bet := 0,
         totalBet := 200, status := PlayerStatus.active, seatIndex := 0,
         hasActed := true, sitOutCount := 0 },
       { agentId := "P1", name := "P1", chips := 0,
         holeCards := [⟨Rank.r2, Suit.d⟩, ⟨Rank.r3, Suit.d⟩], bet := 0,
         totalBet := 101, status := PlayerStatus.all_in, seatIndex := 1,
         hasActed := true, sitOutCount := 0 },
       { agentId := "P2", name := "P2", chips := 49,
         holeCards := [⟨Rank.r2, Suit.s⟩, ⟨Rank.r3, Suit.s⟩], bet := 0,
         totalBet := 150, status := PlayerStatus.folded, seatIndex := 2,
         hasActed := true, sitOutCount := 0 }],
    communityCards := [⟨Rank.rA, Suit.h⟩, ⟨Rank.rK, Suit.h⟩,
      ⟨Rank.rQ, Suit.h⟩, ⟨Rank.rJ, Suit.h⟩, ⟨Rank.rT, Suit.h⟩],
    pot := 451, currentBet := 0, currentTurnIndex := -1, dealerIndex := 0,
    smallBlind := 10, bigBlind := 20, deck := [], handRecord := none,
    lastActionTime := 0, actionTimeoutMs := 15000, lastHandResult := none }

/-- C4 counterexample theorem: the 303-chip layer's remainder chip is paid
to the seat-1 winner P1 (first in the winner list), not to the seat-0
winner P0 as the earliest-seat rule of the claim would require. -/
theorem C4_remainder_counterexample :
    ((resolveHand c4State 0).players.map (fun p => (p.agentId, p.chips)) =
      [("P0", 299), ("P1", 152), ("P2", 49)]) ∧
    ¬ ((resolveHand c4State 0).players.map (fun p => (p.agentId, p.chips)) =
      [("P0", 300), ("P1", 151), ("P2", 49)]) := by
  constructor
  · rfl
  · intro h
    rw [show (resolveHand c4State 0).players.map (fun p => (p.agentId, p.chips)) =
      [("P0", 299), ("P1", 152), ("P2", 49)] from rfl] at h
    simp at h

/-- **C4** (amended): for every layer awarded at showdown with winner list
ws (the eligible players tied for the best hand, in the eligible order:
ascending total bet, ties in seating order), every winner receives
share = floor(amount / |ws|) chips, and the indivisible remainder
amount − share·|ws| goes to the first winner of that list — which need
not be the winner with the earliest seat; non-winners are unchanged. -/
theorem C4_remainder_to_first_winner (players : List Player)
    (evals : List (String × Option HandEvaluation)) (pot : SidePot)
    (j : Nat) (p w0 : Player) (tailws : List Player)
    (hj : players.get? j = some p)
    (hws : (pickWinners players evals pot.eligible).2 = w0 :: tailws) :
    ∃ q, (awardPot players evals pot).get? j = some q ∧
      q.name = p.name ∧ q.status = p.status ∧ q.seatIndex = p.seatIndex ∧
      q.agentId = p.agentId ∧ q.bet = p.bet ∧ q.totalBet = p.totalBet ∧
      ((p.agentId = w0.agentId →
        q.chips = p.chips +
          jsFloorDiv pot.amount (w0 :: tailws).length +
          (pot.amount - jsFloorDiv pot.amount (w0 :: tailws).length *
            (w0 :: tailws).length)) ∧
      (p.agentId ≠ w0.agentId →
        p.agentId ∈ (w0 :: tailws).map Player.agentId →
        q.chips = p.chips + jsFloorDiv pot.amount (w0 :: tailws).length) ∧
      (p.agentId ∉ (w0 :: tailws).map Player.agentId → q.chips = p.chips)) := by
  unfold awardPot
  rw [hws]
  rw [if_neg (by simp)]
  rw [List.get?_map, hj, Option.map_some']
  refine ⟨_, rfl, ?_, ?_, ?_, ?_, ?_, ?_, ?_, ?_, ?_⟩
  · split <;> simp
  · split <;> simp
  · split <;> simp
  · split <;> simp
  · split <;> simp
  · split <;> simp
  · intro hpe
    have h1 : List.findIdx? (fun w => decide (w.agentId = p.agentId))
        (w0 :: tailws) = some 0 := by
      rw [List.findIdx?_eq_some_of_exists
        ⟨w0, List.mem_cons_self _ _, by simp [hpe]⟩]
      rw [List.findIdx_cons]
      simp [← hpe]
    rw [h1]
    rfl
  · intro hne hmem
    obtain ⟨w, hw, hww⟩ := List.mem_map.mp hmem
    have h1 : List.findIdx? (fun w => decide (w.agentId = p.agentId))
        (w0 :: tailws) = some (List.findIdx
          (fun w => decide (w.agentId = p.agentId)) tailws + 1) := by
      rw [List.findIdx?_eq_some_of_exists ⟨w, hw, by simp [hww]⟩]
      rw [List.findIdx_cons]
      have hw0 : (decide (w0.agentId = p.agentId)) = false := by
        simp only [decide_eq_false_iff_not]
        exact fun h => hne h.symm
      rw [hw0]
      rfl
    rw [h1]
    dsimp only
    rw [if_neg (Nat.succ_ne_zero _), add_zero]
  · intro hnotmem
    have h1 : List.findIdx? (fun w => decide (w.agentId = p.agentId))
        (w0 :: tailws) = none := by
      rw [List.findIdx?_eq_none_iff]
      intro w hw
      simp only [decide_eq_false_iff_not]
      intro hww
      exact hnotmem (List.mem_map.mpr ⟨w, hw, hww⟩)
    rw [h1]

/-- A two-player pot for the C4 witness: both tie, winner list [y, x]
(ascending total bet), odd pot of 5. -/
def c4px : Player :=
  { agentId := "x", name := "x", chips := 10, holeCards := [], bet := 0,
    totalBet := 7, status := PlayerStatus.active, seatIndex := 0,
    hasActed := true, sitOutCount := 0 }

/-- Second player of the C4 witness pot. -/
def c4py : Player :=
  { agentId := "y", name := "y", chips := 20, holeCards := [], bet := 0,
    totalBet := 5, status := PlayerStatus.all_in, seatIndex := 1,
    hasActed := true, sitOutCount := 0 }

/-- Tied evaluations for the C4 witness. -/
def c4evals : List (String × Option HandEvaluation) :=
  [("x", some (HandEvaluation.mk 1 "Pair" [5, 4, 3, 2] "Pair of Fives")),
   ("y", some (HandEvaluation.mk 1 "Pair" [5, 4, 3, 2] "Pair of Fives"))]

/-- The layer used by the C4 witness. -/
def c4pot : SidePot := { amount := 5, eligible := ["y", "x"] }

/-- Witness applying C4_remainder_to_first_winner: y, the first winner of
the list (seat 1), receives floor(5/2) = 2 plus the remainder 1. -/
theorem C4_remainder_to_first_winner_witness :
    ∃ q, (awardPot [c4px, c4py] c4evals c4pot).get? 1 = some q ∧
      q.chips = 23 := by
  obtain ⟨q, hq, -, -, -, -, -, -, ha, -, -⟩ :=
    C4_remainder_to_first_winner [c4px, c4py] c4evals c4pot 1 c4py c4py
      [c4px] (by decide) (by decide)
  refine ⟨q, hq, ?_⟩
  rw [ha rfl]
  decide

/-! ## Claim C7: the sanitizer -/

theorem emitRun_length (run : List Char) :
    (emitRun run).length ≤ run.length := by
  unfold emitRun
  split
  · simpa using by omega
  · exact le_refl _

theorem emitRun_mem {run : List Char} {c : Char} (h : c ∈ emitRun run) :
    c ∈ run ∨ c = ' ' := by
  unfold emitRun at h
  split at h
  · right
    rcases List.mem_cons.mp h with rfl | h2
    · rfl
    · simpa using h2
  · left
    exact h

theorem collapseGo_length : ∀ (l run : List Char),
    (collapseGo run l).length ≤ run.length + l.length
  | [], run => by
    rw [collapseGo]
    simpa using emitRun_length run
  | c :: rest, run => by
    rw [collapseGo]
    split
    · have := collapseGo_length rest (run ++ [c])
      simp at this ⊢
      omega
    · have := collapseGo_length rest []
      have h2 := emitRun_length run
      simp at this ⊢
      omega

theorem collapseGo_mem : ∀ (l run : List Char) (c : Char),
    c ∈ collapseGo run l → c ∈ run ∨ c ∈ l ∨ c = ' '
  | [], run, c => by
    rw [collapseGo]
    intro h
    rcases emitRun_mem h with h2 | h2
    · exact Or.inl h2
    · exact Or.inr (Or.inr h2)
  | d :: rest, run, c => by
    rw [collapseGo]
    split
    · intro h
      rcases collapseGo_mem rest (run ++ [d]) c h with h2 | h2 | h2
      · rcases List.mem_append.mp h2 with h3 | h3
        · exact Or.inl h3
        · exact Or.inr (Or.inl (by simpa using Or.inl (by simpa using h3)))
      · exact Or.inr (Or.inl (List.mem_cons_of_mem _ h2))
      · exact Or.inr (Or.inr h2)
    · intro h
      rcases List.mem_append.mp h with h2 | h2
      · rcases emitRun_mem h2 with h3 | h3
        · exact Or.inl h3
        · exact Or.inr (Or.inr h3)
      · rcases List.mem_cons.mp h2 with rfl | h3
        · exact Or.inr (Or.inl (List.mem_cons_self _ _))
        · rcases collapseGo_mem rest [] c h3 with h4 | h4 | h4
          · simp at h4
          · exact Or.inr (Or.inl (List.mem_cons_of_mem _ h4))
          · exact Or.inr (Or.inr h4)

theorem jsTrim_length (l : List Char) : (jsTrim l).length ≤ l.length := by
  unfold jsTrim
  calc ((l.dropWhile isJsSpace).reverse.dropWhile isJsSpace).reverse.length
      = ((l.dropWhile isJsSpace).reverse.dropWhile isJsSpace).length := by
        rw [List.length_reverse]
    _ ≤ (l.dropWhile isJsSpace).reverse.length :=
        (List.dropWhile_suffix _).length_le
    _ = (l.dropWhile isJsSpace).length := by rw [List.length_reverse]
    _ ≤ l.length := (List.dropWhile_suffix _).length_le

theorem jsTrim_mem {l : List Char} {c : Char} (h : c ∈ jsTrim l) : c ∈ l := by
  unfold jsTrim at h
  rw [List.mem_reverse] at h
  have h2 := (List.dropWhile_suffix isJsSpace).subset h
  rw [List.mem_reverse] at h2
  exact (List.dropWhile_suffix isJsSpace).subset h2

theorem parseTag_suffix {l t : List Char} (h : parseTag l = some t) :
    t.IsSuffix l := by
  unfold parseTag at h
  rcases l with _ | ⟨c, l⟩
  · simp at h
  · by_cases hc : c.toNat = 47 <;> simp [hc] at h
    · rcases h1 : List.dropWhile isWordChar l with _ | ⟨d, r⟩ <;>
        simp [h1] at h
      obtain ⟨-, -, ht⟩ := h
      have h2 : (d :: r).IsSuffix l := by
        rw [← h1]
        exact List.dropWhile_suffix isWordChar
      rw [← ht]
      exact ((List.suffix_cons d r).trans h2).trans (List.suffix_cons c l)
    · rcases h1 : List.dropWhile isWordChar (c :: l) with _ | ⟨d, r⟩ <;>
        simp [h1] at h
      obtain ⟨-, -, ht⟩ := h
      have h2 : (d :: r).IsSuffix (c :: l) := by
        rw [← h1]
        exact List.dropWhile_suffix isWordChar
      rw [← ht]
      exact (List.suffix_cons d r).trans h2

theorem stripTagsF_length : ∀ (fuel : Nat) (l : List Char),
    (stripTagsF fuel l).length ≤ l.length
  | _, [] => by simp [stripTagsF]
  | 0, _ :: _ => by simp [stripTagsF]
  | fuel + 1, c :: rest => by
    rw [stripTagsF]
    split
    · split
      · rename_i rest2 hp
        calc (stripTagsF fuel rest2).length ≤ rest2.length :=
              stripTagsF_length fuel rest2
          _ ≤ rest.length := le_of_lt (parseTag_length hp)
          _ ≤ (c :: rest).length := by simp
      · simpa using stripTagsF_length fuel rest
    · simpa using stripTagsF_length fuel rest

theorem stripTagsF_mem : ∀ (fuel : Nat) (l : List Char) (c : Char),
    c ∈ stripTagsF fuel l → c ∈ l
  | _, [], c => by simp [stripTagsF]
  | 0, d :: rest, c => by simp [stripTagsF]
  | fuel + 1, d :: rest, c => by
    rw [stripTagsF]
    split
    · split
      · rename_i rest2 hp
        intro h
        exact List.mem_cons_of_mem _
          ((parseTag_suffix hp).subset (stripTagsF_mem fuel rest2 c h))
      · intro h
        rcases List.mem_cons.mp h with rfl | h2
        · exact List.mem_cons_self _ _
        · exact List.mem_cons_of_mem _ (stripTagsF_mem fuel rest c h2)
    · intro h
      rcases List.mem_cons.mp h with rfl | h2
      · exact List.mem_cons_self _ _
      · exact List.mem_cons_of_mem _ (stripTagsF_mem fuel rest c h2)

/-- **C7 counterexample**: the claim states every accepted message has
length between 1 and 280.  The input consisting of the two characters <
and > passes the length check (length 2) but the markup stripping that
runs after the length check removes both characters, and the empty string
is accepted: sanitizeChat returns ok with the empty text. -/
theorem C7_sanitizeChat_counterexample :
    sanitizeChat (String.toList "<>") = ChatResult.ok [] := by rfl

/-- **C7** (amended): sanitizeChat is total: for every input it returns
either an accepted text of length at most 280 (possibly 0: the final
stripping runs after the length check) containing no control character,
no angle bracket and none of the four markup characters (backtick, tilde,
pipe, backslash), and matching none of the eight injection patterns — the
characters [ ] { } are not stripped — or one of the three rejections
(empty message, too long, filtered). -/
theorem C7_sanitizeChat_total (text : List Char) :
    (∀ u, sanitizeChat text = ChatResult.ok u →
      u.length ≤ 280 ∧
      (∀ c ∈ u, isControlChar c = false ∧ c.toNat ≠ 60 ∧ c.toNat ≠ 62 ∧
        c.toNat ≠ 96 ∧ c.toNat ≠ 126 ∧ c.toNat ≠ 124 ∧ c.toNat ≠ 92) ∧
      injectionMatch u = false) ∧
    (∀ r, sanitizeChat text = ChatResult.rejected r →
      r = "Empty message" ∨ r = "Message too long (max 280 chars)" ∨
      r = "Message filtered") := by
  unfold sanitizeChat
  constructor
  · intro u hu
    dsimp only at hu
    split at hu
    · cases hu
    · split at hu
      · cases hu
      · rename_i hlen0 hlen280
        split at hu
        · cases hu
        · rename_i hinj
          cases hu
          refine ⟨?_, ?_, by simpa using hinj⟩
          · calc (List.filter _ (stripTags (List.filter _
                (jsTrim (collapseWs (List.filter
                  (fun c => ¬ isControlChar c) text)))))).length
                ≤ (stripTags (List.filter _ (jsTrim (collapseWs
                    (List.filter (fun c => ¬ isControlChar c) text))))).length :=
                  List.length_filter_le _ _
              _ ≤ (List.filter _ (jsTrim (collapseWs (List.filter
                    (fun c => ¬ isControlChar c) text)))).length :=
                  stripTagsF_length _ _
              _ ≤ (jsTrim (collapseWs (List.filter
                    (fun c => ¬ isControlChar c) text))).length :=
                  List.length_filter_le _ _
              _ ≤ 280 := by omega
          · intro c hc
            have h4 := List.mem_filter.mp hc
            have hc3 := stripTagsF_mem _ _ _ h4.1
            have h2 := List.mem_filter.mp hc3
            have hc1 := jsTrim_mem h2.1
            have hctrl : isControlChar c = false := by
              rcases collapseGo_mem _ _ _ hc1 with h | h | h
              · simp at h
              · exact Bool.not_eq_true _ ▸ by
                  simpa using (List.mem_filter.mp h).2
              · subst h
                rfl
            refine ⟨hctrl, ?_, ?_, ?_, ?_, ?_, ?_⟩
            · intro h60
              have := h2.2
              simp [h60] at this
            · intro h62
              have := h2.2
              simp [h62] at this
            · intro h96
              have := h4.2
              simp [h96] at this
            · intro h126
              have := h4.2
              simp [h126] at this
            · intro h124
              have := h4.2
              simp [h124] at this
            · intro h92
              have := h4.2
              simp [h92] at this
  · intro r hr
    dsimp only at hr
    split at hr
    · cases hr
      exact Or.inl rfl
    · split at hr
      · cases hr
        exact Or.inr (Or.inl rfl)
      · split at hr
        · cases hr
          exact Or.inr (Or.inr rfl)
        · cases hr

/-- Witness applying C7_sanitizeChat_total at the accepted message
"gg wp". -/
theorem C7_sanitizeChat_total_witness :
    sanitizeChat (String.toList "gg wp") =
      ChatResult.ok (String.toList "gg wp") ∧
    injectionMatch (String.toList "gg wp") = false :=
  ⟨by rfl, ((C7_sanitizeChat_total (String.toList "gg wp")).1
    (String.toList "gg wp") (by rfl)).2.2⟩

/-! ## Claim C8: timeout idempotence -/
/-- resolveHand always ends the hand: both of its branches put the table in
phase showdown and leave the timeout window untouched. -/
theorem resolveHand_fields (state : TableState) (now : Int) :
    (resolveHand state now).phase = Phase.showdown ∧
    (resolveHand state now).actionTimeoutMs = state.actionTimeoutMs := by
  unfold resolveHand
  split
  · exact ⟨rfl, rfl⟩
  · exact ⟨rfl, rfl⟩

/-- A successful moveToNextPlayer changes only the turn index. -/
theorem moveToNextPlayer_some {state r : TableState}
    (h : moveToNextPlayer state = some r) :
    r.phase = state.phase ∧ r.lastActionTime = state.lastActionTime ∧
    r.actionTimeoutMs = state.actionTimeoutMs := by
  unfold moveToNextPlayer at h
  rcases Option.map_eq_some'.mp h with ⟨n, -, rfl⟩
  exact ⟨rfl, rfl, rfl⟩

/-- The phase chosen by advancePhase for a live pre-river phase is one of
flop, turn, river, hence neither waiting nor showdown. -/
theorem nextPhase_ne (c1 c2 : Prop) [Decidable c1] [Decidable c2] :
    (if c1 then Phase.flop else if c2 then Phase.turn else Phase.river) ≠
      Phase.waiting ∧
    (if c1 then Phase.flop else if c2 then Phase.turn else Phase.river) ≠
      Phase.showdown := by
  constructor
  · split
    · simp
    · split <;> simp
  · split
    · simp
    · split <;> simp

/-- A successful advancePhase from a live phase either ends the hand
(showdown) or stamps the action clock with now; the timeout window is
untouched. -/
theorem advancePhaseFuel_ok : ∀ (fuel : Nat) (state : TableState)
    (now : Int) (r : TableState),
    state.phase ≠ Phase.waiting → state.phase ≠ Phase.showdown →
    advancePhaseFuel fuel state now = some r →
    (r.phase = Phase.showdown ∨ r.lastActionTime = now) ∧
    r.actionTimeoutMs = state.actionTimeoutMs
  | 0, state, now, r => by
    intro _ _ h
    cases h
  | fuel + 1, state, now, r => by
    intro hw hs h
    rw [advancePhaseFuel] at h
    dsimp only at h
    split at h
    · -- river
      injection h with h
      subst h
      exact ⟨Or.inl (resolveHand_fields _ _).1, (resolveHand_fields _ _).2⟩
    · -- waiting
      rename_i heq
      exact absurd heq hw
    · -- showdown
      rename_i heq
      exact absurd heq hs
    · -- default: a live pre-river phase
      split at h
      · have hres := advancePhaseFuel_ok fuel _ now r
          (nextPhase_ne _ _).1 (nextPhase_ne _ _).2 h
        exact ⟨hres.1, hres.2⟩
      · rcases Option.map_eq_some'.mp h with ⟨n, -, rfl⟩
        exact ⟨Or.inr rfl, rfl⟩

/-- A successful finishAction from a live phase ends the hand or stamps
the action clock with now; the timeout window is untouched. -/
theorem finishAction_ok {state : TableState} {playerIndex : Int}
    {playersBase : List Player} {updated : Player} {pot currentBet : Int}
    {recAmount : Int} {agentId : String} {action : ActionType} {now : Int}
    {r : TableState}
    (hw : state.phase ≠ Phase.waiting) (hs : state.phase ≠ Phase.showdown)
    (h : finishAction state playerIndex playersBase updated pot currentBet
      recAmount agentId action now = some (ActResult.ok r)) :
    (r.phase = Phase.showdown ∨ r.lastActionTime = now) ∧
    r.actionTimeoutMs = state.actionTimeoutMs := by
  unfold finishAction at h
  dsimp only at h
  rcases hhr : state.handRecord with _ | hr <;> rw [hhr] at h <;> dsimp only at h
  case none =>
    split at h
    · injection h with h
      injection h with h
      subst h
      exact ⟨Or.inl (resolveHand_fields _ _).1, (resolveHand_fields _ _).2⟩
    · split at h
      · rcases Option.map_eq_some'.mp h with ⟨q, hq, hqr⟩
        injection hqr with hqr
        subst hqr
        unfold advancePhase at hq
        have hres := advancePhaseFuel_ok 4 _ now q (by exact hw) (by exact hs) hq
        exact ⟨hres.1, hres.2⟩
      · rcases Option.map_eq_some'.mp h with ⟨q, hq, hqr⟩
        injection hqr with hqr
        subst hqr
        exact ⟨Or.inr rfl, (moveToNextPlayer_some hq).2.2⟩
  case some =>
    split at h
    · injection h with h
      injection h with h
      subst h
      exact ⟨Or.inl (resolveHand_fields _ _).1, (resolveHand_fields _ _).2⟩
    · split at h
      · rcases Option.map_eq_some'.mp h with ⟨q, hq, hqr⟩
        injection hqr with hqr
        subst hqr
        unfold advancePhase at hq
        have hres := advancePhaseFuel_ok 4 _ now q (by exact hw) (by exact hs) hq
        exact ⟨hres.1, hres.2⟩
      · rcases Option.map_eq_some'.mp h with ⟨q, hq, hqr⟩
        injection hqr with hqr
        subst hqr
        exact ⟨Or.inr rfl, (moveToNextPlayer_some hq).2.2⟩

/-- A successful processAction ends the hand or stamps the action clock
with now, and never touches the timeout window. -/
theorem processAction_ok {state : TableState} {agentId : String}
    {action : ActionType} {amount : Option Int} {now : Int} {r : TableState}
    (h : processAction state agentId action amount now =
      some (ActResult.ok r)) :
    (r.phase = Phase.showdown ∨ r.lastActionTime = now) ∧
    r.actionTimeoutMs = state.actionTimeoutMs := by
  unfold processAction at h
  dsimp only at h
  split at h
  · simp at h
  · split at h
    · simp at h
    · split at h
      · simp at h
      · rename_i hphase
        push_neg at hphase
        split at h
        · cases h
        · split at h
          · simp at h
          · split at h
            · exact finishAction_ok hphase.1 hphase.2 h
            · split at h
              · simp at h
              · exact finishAction_ok hphase.1 hphase.2 h
            · exact finishAction_ok hphase.1 hphase.2 h
            · split at h
              · simp at h
              · split at h
                · simp at h
                · exact finishAction_ok hphase.1 hphase.2 h
            · exact finishAction_ok hphase.1 hphase.2 h

/-- A state whose hand is over, or whose action clock was stamped at now,
is a fixed point of handleTimeout when the timeout window is positive. -/
theorem handleTimeout_stable {r : TableState} {now : Int}
    (hpos : 0 < r.actionTimeoutMs)
    (hor : r.phase = Phase.showdown ∨ r.lastActionTime = now) :
    handleTimeout r now = some r := by
  unfold handleTimeout
  by_cases g1 : r.phase = Phase.waiting ∨ r.phase = Phase.showdown
  · rw [if_pos g1]
  · rw [if_neg g1]
    by_cases g2 : r.currentTurnIndex < 0
    · rw [if_pos g2]
    · rw [if_neg g2]
      rcases hor with hph | hlast
      · exact absurd (Or.inr hph) g1
      · rw [if_pos (by rw [hlast]; simpa using hpos)]

/-- Idempotence helper: when the timeout window is positive, the state
returned by a non-crashing handleTimeout is a fixed point of
handleTimeout at the same now. -/
theorem handleTimeout_idem {s : TableState} {now : Int} {t : TableState}
    (hpos : 0 < s.actionTimeoutMs)
    (ht : handleTimeout s now = some t) :
    handleTimeout t now = some t := by
  unfold handleTimeout at ht
  split at ht
  · rename_i h1
    cases ht
    unfold handleTimeout
    rw [if_pos h1]
  · split at ht
    · rename_i h1 h2
      cases ht
      unfold handleTimeout
      rw [if_neg h1, if_pos h2]
    · split at ht
      · rename_i h1 h2 h3
        cases ht
        unfold handleTimeout
        rw [if_neg h1, if_neg h2, if_pos h3]
      · rename_i h1 h2 h3
        split at ht
        · rename_i hget
          cases ht
          unfold handleTimeout
          rw [if_neg h1, if_neg h2, if_neg h3, hget]
        · rename_i player hget
          split at ht
          · rename_i hst
            cases ht
            unfold handleTimeout
            rw [if_neg h1, if_neg h2, if_neg h3, hget]
            dsimp only
            rw [if_pos hst]
          · rename_i hst
            split at ht
            · cases ht
            · rename_i msg hpa
              cases ht
              unfold handleTimeout
              rw [if_neg h1, if_neg h2, if_neg h3, hget]
              dsimp only
              rw [if_neg hst, hpa]
            · rename_i res hpa
              have he : res = t := Option.some.inj ht
              obtain ⟨hor, htm⟩ := processAction_ok hpa
              rw [← he]
              exact handleTimeout_stable (by rw [htm]; exact hpos) hor

/-- N successive applications of handleTimeout with the same now, chained
through Option. -/
def handleTimeoutN : Nat → TableState → Int → Option TableState
  | 0, s, _ => some s
  | n + 1, s, now => (handleTimeout s now).bind (fun t => handleTimeoutN n t now)

/-- **C8** (amended): when the timeout window actionTimeoutMs is positive
(the code always creates tables with 15000 ms), the timeout handler is
idempotent: a second application to the result of a non-crashing first one
returns that state unchanged, and N successive applications with the same
now equal a single one for every N at least 1.  The positivity hypothesis
is necessary: with actionTimeoutMs = 0 the handler fires again on its own
output (see C8_counterexample). -/
theorem C8_handleTimeout_idempotent (s : TableState) (now : Int)
    (hpos : 0 < s.actionTimeoutMs) (t : TableState)
    (ht : handleTimeout s now = some t) :
    handleTimeout t now = some t ∧
    (∀ n : Nat, handleTimeoutN (n + 1) s now = handleTimeout s now) := by
  have hidem := handleTimeout_idem hpos ht
  refine ⟨hidem, ?_⟩
  intro n
  induction n with
  | zero =>
    rw [handleTimeoutN, ht]
    rfl
  | succ n ih =>
    have ih2 : handleTimeoutN n t now = some t := by
      rw [handleTimeoutN, ht] at ih
      exact ih
    rw [handleTimeoutN, ht]
    show handleTimeoutN (n + 1) t now = some t
    rw [handleTimeoutN, hidem]
    exact ih2

/-- A generic active player for the C8 states. -/
def c8Player (id : String) (seat : Int) : Player :=
  { agentId := id, name := id, chips := 100, holeCards := [], bet := 0,
    totalBet := 10, status := PlayerStatus.active, seatIndex := seat,
    hasActed := false, sitOutCount := 0 }

/-- C8 counterexample state: three active players on the flop, player 0 to
act, with a zero timeout window. -/
def c8State : TableState :=
  { tableId := "t", handId := "h", phase := Phase.flop,
    players := [c8Player "A" 0, c8Player "B" 1, c8Player "C" 2],
    communityCards := [⟨Rank.r7, Suit.d⟩, ⟨Rank.r8, Suit.d⟩, ⟨Rank.r9, Suit.d⟩],
    pot := 30, currentBet := 0, currentTurnIndex := 0, dealerIndex := 0,
    smallBlind := 10, bigBlind := 20, deck := [], handRecord := none,
    lastActionTime := 0, actionTimeoutMs := 0, lastHandResult := none }

/-- **C8 counterexample**: the claim as stated, without a positivity
assumption on actionTimeoutMs, is false: with actionTimeoutMs = 0 the
handler fires on every call, so the second application folds a second
player and two applications differ from one. -/
theorem C8_counterexample :
    (handleTimeout c8State 0).bind (fun t => handleTimeout t 0) ≠
      handleTimeout c8State 0 := by decide

/-- The C8 witness state: the same table with the 15-second window the
code uses. -/
def c8Live : TableState := { c8State with actionTimeoutMs := 15000 }

/-- The state after the first timeout fires on c8Live at now = 20000. -/
def c8After : TableState := (handleTimeout c8Live 20000).getD c8Live

/-- Witness for C8: at the concrete state c8Live the first timeout fires
(folding the stalled player) and a second application returns the
resulting state unchanged. -/
theorem C8_handleTimeout_idempotent_witness :
    handleTimeout c8After 20000 = some c8After :=
  (C8_handleTimeout_idempotent c8Live 20000 (by decide) c8After (by decide)).1

/-! ## Claim C10: blinds posted in full -/

/-- The JavaScript successor index (a + 1) % len differs from a when a is
in range and the list has at least two entries. -/
theorem jsMod_succ_ne {a len : Int} (h0 : 0 ≤ a) (hlt : a < len)
    (h2 : 2 ≤ len) : jsMod (a + 1) len ≠ a := by
  unfold jsMod
  rw [Int.tmod_eq_emod (by omega) (by omega)]
  rcases lt_or_eq_of_le (show a + 1 ≤ len by omega) with hl | he
  · rw [Int.emod_eq_of_lt (by omega) hl]
    omega
  · rw [← he, Int.emod_self]
    omega

/-- Dealing hole cards preserves the number of players. -/
theorem dealHole_length : ∀ (ps : List Player) (deck : List Card),
    (dealHole ps deck).1.length = ps.length
  | [], _ => rfl
  | p :: ps, deck => by
    simp only [dealHole, List.length_cons]
    rw [dealHole_length ps]

/-- Dealing hole cards changes only each player's holeCards field. -/
theorem dealHole_get? : ∀ (ps : List Player) (deck : List Card) (n : Nat)
    (p : Player), (dealHole ps deck).1.get? n = some p →
    ∃ q, ps.get? n = some q ∧ p.status = q.status ∧ p.chips = q.chips ∧
      p.bet = q.bet ∧ p.totalBet = q.totalBet ∧ p.agentId = q.agentId
  | [], _, n, p => by
    intro h
    simp [dealHole] at h
  | p0 :: ps, deck, 0, p => by
    intro h
    injection h with h
    subst h
    exact ⟨p0, rfl, rfl, rfl, rfl, rfl, rfl⟩
  | p0 :: ps, deck, n + 1, p => by
    intro h
    exact dealHole_get? ps (dealCards deck 2).2 n p h

/-- Every player dealt in by startHand starts active with zero bets and at
least the big blind in chips (the reset-and-filter stage of startHand). -/
theorem players0_facts (l : List Player) (bb : Int) :
    ∀ (n : Nat) (q : Player),
    ((l.filter (fun p => decide (bb ≤ p.chips) &&
        decide (p.status ≠ PlayerStatus.sitting_out))).mapIdx
      (fun i p => { p with
        holeCards := [], bet := 0, totalBet := 0,
        status := PlayerStatus.active, seatIndex := (i : Int),
        hasActed := false })).get? n = some q →
    q.status = PlayerStatus.active ∧ q.bet = 0 ∧ q.totalBet = 0 ∧
    bb ≤ q.chips := by
  intro n q hq
  rw [List.get?_eq_getElem?, List.getElem?_mapIdx] at hq
  rcases Option.map_eq_some'.mp hq with ⟨p0, hp0g, rfl⟩
  refine ⟨rfl, rfl, rfl, ?_⟩
  have hsome : (l.filter (fun p => decide (bb ≤ p.chips) &&
      decide (p.status ≠ PlayerStatus.sitting_out))).get? n = some p0 := by
    rw [List.get?_eq_getElem?]
    exact hp0g
  have hpred := (List.mem_filter.mp (List.get?_mem hsome)).2
  simp only [Bool.and_eq_true, decide_eq_true_eq] at hpred
  exact hpred.1

/-- Every player kept at the table but not dealt in by startHand is
sitting out: the under-funded non-sitting-out players were removed by the
auto-bust filter before this list is built. -/
theorem sittingOut_facts (l : List Player) (bb : Int) :
    ∀ q ∈ (((l.filter (fun p => ¬ (decide (p.chips < bb) &&
          decide (p.status ≠ PlayerStatus.sitting_out)))).map (fun p =>
        if p.status = PlayerStatus.sitting_out then
          { p with sitOutCount := p.sitOutCount + 1 } else p)).filter
        (fun p => ¬ (decide (p.status = PlayerStatus.sitting_out) &&
          decide (10 ≤ p.sitOutCount)))).filter
      (fun p => decide (p.status = PlayerStatus.sitting_out) ||
        decide (p.chips < bb)),
    q.status = PlayerStatus.sitting_out := by
  intro q hq
  rw [List.mem_filter] at hq
  obtain ⟨hqU, hqP⟩ := hq
  rw [List.mem_filter] at hqU
  obtain ⟨hqM, -⟩ := hqU
  rw [List.mem_map] at hqM
  obtain ⟨p0, hp0m, rfl⟩ := hqM
  rw [List.mem_filter] at hp0m
  obtain ⟨-, hp0⟩ := hp0m
  simp only [Bool.or_eq_true, decide_eq_true_eq] at hqP
  simp only [Bool.and_eq_true, decide_eq_true_eq, decide_not,
    Bool.not_eq_true, decide_eq_false_iff_not, not_and] at hp0
  by_cases hst : p0.status = PlayerStatus.sitting_out
  · rw [if_pos hst]
    exact hst
  · rw [if_neg hst] at hqP ⊢
    rcases hqP with hs | hc
    · exact hs
    · have hfl := hp0 hc
      simpa using hfl

/-- The blind-posting tail of startHand posts both blinds in full whenever
every dealt-in player is active with at least bigBlind chips: the result
has pot = smallBlind + bigBlind, currentBet = bigBlind, two distinct seats
holding exactly the small and big blind, and no dealt-in player all-in. -/
theorem startHandPost_ok (state : TableState) (handId : String) (now : Int)
    (smallBlind bigBlind : Int) (players0 sittingOutPlayers : List Player)
    (shuffledDeck : List Card) (s1 : TableState)
    (hbb : bigBlind = smallBlind * 2)
    (hsb10 : 10 ≤ smallBlind)
    (h2 : 2 ≤ players0.length)
    (hp0 : ∀ (n : Nat) (q : Player), players0.get? n = some q →
      q.status = PlayerStatus.active ∧ q.bet = 0 ∧ q.totalBet = 0 ∧
      bigBlind ≤ q.chips)
    (hso : ∀ q ∈ sittingOutPlayers, q.status = PlayerStatus.sitting_out)
    (h : startHandPost state handId now smallBlind bigBlind players0
      sittingOutPlayers shuffledDeck = some s1) :
    s1.bigBlind = s1.smallBlind * 2 ∧
    10 ≤ s1.smallBlind ∧
    s1.pot = s1.smallBlind + s1.bigBlind ∧
    s1.currentBet = s1.bigBlind ∧
    (∃ i j : Nat, i ≠ j ∧
      (∃ pi, s1.players.get? i = some pi ∧ pi.bet = s1.smallBlind ∧
        pi.totalBet = s1.smallBlind ∧ pi.status = PlayerStatus.active) ∧
      (∃ pj, s1.players.get? j = some pj ∧ pj.bet = s1.bigBlind ∧
        pj.totalBet = s1.bigBlind ∧ pj.status = PlayerStatus.active)) ∧
    (∀ p ∈ s1.players, p.status ≠ PlayerStatus.sitting_out →
      p.status = PlayerStatus.active) := by
  subst hbb
  unfold startHandPost at h
  dsimp only at h
  split at h
  case _ =>
    rename_i sbP bbP hsbg hbbg
    set len : Int := ((players0.length : Nat) : Int) with hlendef
    set SI : Int := (if players0.length = 2 then jsMod state.dealerIndex len
      else jsMod (jsMod state.dealerIndex len + 1) len) with hSIdef
    set BI : Int := jsMod (SI + 1) len with hBIdef
    unfold getP at hsbg hbbg
    split at hsbg
    · cases hsbg
    · rename_i hSIneg
      split at hbbg
      · cases hbbg
      · rename_i hBIneg
        obtain ⟨hSIlt, -⟩ := List.get?_eq_some.mp hsbg
        obtain ⟨hBIlt, -⟩ := List.get?_eq_some.mp hbbg
        rw [dealHole_length] at hSIlt hBIlt
        obtain ⟨qs, hqs, hqsst, hqsch, -, -, -⟩ :=
          dealHole_get? players0 shuffledDeck SI.toNat sbP hsbg
        obtain ⟨qb, hqb, hqbst, hqbch, -, -, -⟩ :=
          dealHole_get? players0 shuffledDeck BI.toNat bbP hbbg
        obtain ⟨hqsact, -, -, hqschbb⟩ := hp0 _ _ hqs
        obtain ⟨hqbact, -, -, hqbchbb⟩ := hp0 _ _ hqb
        have hSI0 : 0 ≤ SI := by omega
        have hBI0 : 0 ≤ BI := by omega
        have hSIltZ : SI < len := by
          rw [hlendef]
          omega
        have hne : BI ≠ SI := by
          rw [hBIdef]
          exact jsMod_succ_ne hSI0 hSIltZ (by rw [hlendef]; omega)
        have hsbA : min smallBlind sbP.chips = smallBlind :=
          min_eq_left (by rw [hqsch]; omega)
        have hbbA : min (smallBlind * 2) bbP.chips = smallBlind * 2 :=
          min_eq_left (by rw [hqbch]; omega)
        injection h with h
        subst h
        refine ⟨rfl, hsb10, ?_, rfl, ?_, ?_⟩
        · dsimp only
          rw [hsbA, hbbA]
        · refine ⟨SI.toNat, BI.toNat, by omega, ?_, ?_⟩
          · dsimp only
            rw [List.get?_append (by
              rw [List.length_set, List.length_set, dealHole_length]
              omega)]
            rw [List.get?_set_ne _ _ (by omega), List.get?_set_eq, hsbg]
            refine ⟨_, rfl, ?_, ?_, ?_⟩
            · dsimp only
              exact hsbA
            · dsimp only
              exact hsbA
            · dsimp only
              rw [hqsst]
              exact hqsact
          · dsimp only
            rw [List.get?_append (by
              rw [List.length_set, List.length_set, dealHole_length]
              omega)]
            rw [List.get?_set_eq, List.get?_set_ne _ _ (by omega), hbbg]
            refine ⟨_, rfl, ?_, ?_, ?_⟩
            · dsimp only
              exact hbbA
            · dsimp only
              exact hbbA
            · dsimp only
              rw [hqbst]
              exact hqbact
        · intro p hp hpns
          dsimp only at hp
          rw [List.mem_append] at hp
          rcases hp with hp | hp
          · rcases List.mem_or_eq_of_mem_set hp with hp | rfl
            · rcases List.mem_or_eq_of_mem_set hp with hp | rfl
              · obtain ⟨n, hn⟩ := List.mem_iff_get?.mp hp
                obtain ⟨q, hq, hst, -, -, -, -⟩ :=
                  dealHole_get? players0 shuffledDeck n p hn
                rw [hst]
                exact (hp0 n q hq).1
              · dsimp only
                rw [hqsst]
                exact hqsact
            · dsimp only
              rw [hqbst]
              exact hqbact
          · obtain ⟨n, hn⟩ := List.mem_iff_get?.mp hp
            rw [List.get?_eq_getElem?, List.getElem?_mapIdx] at hn
            rcases Option.map_eq_some'.mp hn with ⟨q, hq, rfl⟩
            have hqm : q ∈ sittingOutPlayers := List.get?_mem
              (by rw [List.get?_eq_getElem?]; exact hq)
            exact absurd (hso q hqm) hpns
  case _ =>
    cases h


/-- **C10**: blinds are always posted in full.  In every state returned by
a successful startHand (one that actually begins a hand: canStartHand held
and the result is in phase preflop), bigBlind = smallBlind * 2 with
smallBlind at least 10, the pot is exactly smallBlind + bigBlind,
currentBet is the big blind, two distinct seats hold bet and totalBet of
exactly smallBlind and bigBlind respectively with status active, and every
non-sitting-out player at the table is active - nobody starts the hand
all-in, because every player who cannot cover the big blind is evicted
before the cards are dealt. -/
theorem C10_blinds_posted (state : TableState) (shuffledDeck : List Card)
    (handId : String) (now : Int) (s1 : TableState)
    (hcan : canStartHand state = true)
    (h : startHand state shuffledDeck handId now = some s1)
    (hph : s1.phase = Phase.preflop) :
    s1.bigBlind = s1.smallBlind * 2 ∧
    10 ≤ s1.smallBlind ∧
    s1.pot = s1.smallBlind + s1.bigBlind ∧
    s1.currentBet = s1.bigBlind ∧
    (∃ i j : Nat, i ≠ j ∧
      (∃ pi, s1.players.get? i = some pi ∧ pi.bet = s1.smallBlind ∧
        pi.totalBet = s1.smallBlind ∧ pi.status = PlayerStatus.active) ∧
      (∃ pj, s1.players.get? j = some pj ∧ pj.bet = s1.bigBlind ∧
        pj.totalBet = s1.bigBlind ∧ pj.status = PlayerStatus.active)) ∧
    (∀ p ∈ s1.players, p.status ≠ PlayerStatus.sitting_out →
      p.status = PlayerStatus.active) := by
  have hwait : state.phase = Phase.waiting := by
    unfold canStartHand at hcan
    simp only [Bool.and_eq_true, decide_eq_true_eq] at hcan
    exact hcan.1
  unfold startHand at h
  rw [if_neg (by simp [hcan])] at h
  dsimp only at h
  split at h
  · injection h with h
    subst h
    rw [hwait] at hph
    cases hph
  · rename_i hlen2
    exact startHandPost_ok state handId now _ _ _ _ shuffledDeck s1 rfl
      (le_max_left _ _) (by omega) (players0_facts _ _)
      (sittingOut_facts _ _) h

/-- A 300-chip active player for the C10 witness. -/
def c10Player (id : String) (seat : Int) : Player :=
  { agentId := id, name := id, chips := 300, holeCards := [], bet := 0,
    totalBet := 0, status := PlayerStatus.active, seatIndex := seat,
    hasActed := false, sitOutCount := 0 }

/-- C10 witness state: two funded players at a waiting table. -/
def c10State : TableState :=
  { tableId := "t", handId := "", phase := Phase.waiting,
    players := [c10Player "A" 0, c10Player "B" 1],
    communityCards := [], pot := 0, currentBet := 0, currentTurnIndex := -1,
    dealerIndex := 0, smallBlind := 10, bigBlind := 20, deck := [],
    handRecord := none, lastActionTime := 0, actionTimeoutMs := 15000,
    lastHandResult := none }

/-- The state c10State after startHand deals a fresh deck. -/
def c10After : TableState := (startHand c10State createDeck "h1" 5).getD c10State

/-- Witness for C10 at the concrete two-player table: the blinds 10 and 20
are posted in full and both blind players are active. -/
theorem C10_blinds_posted_witness :
    c10After.bigBlind = c10After.smallBlind * 2 ∧
    10 ≤ c10After.smallBlind ∧
    c10After.pot = c10After.smallBlind + c10After.bigBlind ∧
    c10After.currentBet = c10After.bigBlind ∧
    (∃ i j : Nat, i ≠ j ∧
      (∃ pi, c10After.players.get? i = some pi ∧ pi.bet = c10After.smallBlind ∧
        pi.totalBet = c10After.smallBlind ∧ pi.status = PlayerStatus.active) ∧
      (∃ pj, c10After.players.get? j = some pj ∧ pj.bet = c10After.bigBlind ∧
        pj.totalBet = c10After.bigBlind ∧ pj.status = PlayerStatus.active)) ∧
    (∀ p ∈ c10After.players, p.status ≠ PlayerStatus.sitting_out →
      p.status = PlayerStatus.active) :=
  C10_blinds_posted c10State createDeck "h1" 5 c10After (by decide)
    (by decide) (by decide)


/-! ## Claim C2: no card duplication -/

/-- The multiset of all cards a table state accounts for: every player's
hole cards, the community cards and the remaining deck, as a list. -/
def allCards (state : TableState) : List Card :=
  state.players.flatMap Player.holeCards ++ state.communityCards ++ state.deck

/-- Mapping a hole-card-preserving function over players preserves the
combined hole-card list. -/
theorem flatMap_holeCards_map (l : List Player) (f : Player → Player)
    (hf : ∀ p, (f p).holeCards = p.holeCards) :
    (l.map f).flatMap Player.holeCards = l.flatMap Player.holeCards := by
  induction l with
  | nil => rfl
  | cons p ps ih => simp only [List.map_cons, List.flatMap_cons, ih, hf]

/-- Replacing a player by one with the same hole cards preserves the
combined hole-card list. -/
theorem flatMap_holeCards_set : ∀ (l : List Player) (n : Nat) (b : Player)
    (a : Player), l.get? n = some a → b.holeCards = a.holeCards →
    (l.set n b).flatMap Player.holeCards = l.flatMap Player.holeCards
  | [], n, b, a => by
    intro h _
    cases h
  | p :: ps, 0, b, a => by
    intro h hb
    injection h with h
    subst h
    simp only [List.set_cons_zero, List.flatMap_cons, hb]
  | p :: ps, n + 1, b, a => by
    intro h hb
    simp only [List.set_cons_succ, List.flatMap_cons]
    rw [flatMap_holeCards_set ps n b a h hb]

/-- Variant of flatMap_holeCards_set with the hole-card condition phrased
for whatever player sits at the index (out-of-range set is a no-op). -/
theorem flatMap_holeCards_setF : ∀ (l : List Player) (n : Nat) (b : Player),
    (∀ a, l.get? n = some a → b.holeCards = a.holeCards) →
    (l.set n b).flatMap Player.holeCards = l.flatMap Player.holeCards
  | [], _, b => by
    intro _
    rfl
  | p :: ps, 0, b => by
    intro h
    simp only [List.set_cons_zero, List.flatMap_cons, h p rfl]
  | p :: ps, n + 1, b => by
    intro h
    simp only [List.set_cons_succ, List.flatMap_cons]
    rw [flatMap_holeCards_setF ps n b (fun a ha => h a ha)]

/-- The dealt cards followed by the remaining deck reassemble the deck. -/
theorem dealCards_append (deck : List Card) (n : Nat) :
    (dealCards deck n).1 ++ (dealCards deck n).2 = deck := by
  unfold dealCards
  exact List.take_append_drop n deck

/-- If every player holds no cards the combined hole-card list is empty. -/
theorem flatMap_holeCards_nil (l : List Player)
    (h : ∀ p ∈ l, p.holeCards = []) : l.flatMap Player.holeCards = [] := by
  induction l with
  | nil => rfl
  | cons p ps ih =>
    simp only [List.flatMap_cons, h p (List.mem_cons_self p ps),
      List.nil_append]
    exact ih (fun q hq => h q (List.mem_cons_of_mem p hq))

/-- mapIdx with a hole-card-preserving function keeps empty hands empty. -/
theorem mapIdx_holeCards_nil (l : List Player) (g : Nat → Player → Player)
    (hg : ∀ i p, (g i p).holeCards = p.holeCards)
    (h : ∀ p ∈ l, p.holeCards = []) :
    ∀ q ∈ l.mapIdx g, q.holeCards = [] := by
  intro q hq
  obtain ⟨n, hn⟩ := List.mem_iff_get?.mp hq
  rw [List.get?_eq_getElem?, List.getElem?_mapIdx] at hn
  rcases Option.map_eq_some'.mp hn with ⟨p, hp, rfl⟩
  rw [hg]
  exact h p (List.get?_mem (by rw [List.get?_eq_getElem?]; exact hp))

/-- The hole cards dealt by startHand followed by the remaining deck
reassemble the shuffled deck, in order. -/
theorem dealHole_cards : ∀ (ps : List Player) (deck : List Card),
    (dealHole ps deck).1.flatMap Player.holeCards ++ (dealHole ps deck).2 =
      deck
  | [], deck => rfl
  | p :: ps, deck => by
    simp only [dealHole, List.flatMap_cons, List.append_assoc]
    rw [dealHole_cards ps]
    unfold dealCards
    exact List.take_append_drop 2 deck

/-- If every table player holds no cards, the sitting-out players kept by
startHand hold no cards either. -/
theorem sittingOut_holeCards (l : List Player) (bb : Int)
    (h : ∀ p ∈ l, p.holeCards = []) :
    ∀ q ∈ (((l.filter (fun p => ¬ (decide (p.chips < bb) &&
          decide (p.status ≠ PlayerStatus.sitting_out)))).map (fun p =>
        if p.status = PlayerStatus.sitting_out then
          { p with sitOutCount := p.sitOutCount + 1 } else p)).filter
        (fun p => ¬ (decide (p.status = PlayerStatus.sitting_out) &&
          decide (10 ≤ p.sitOutCount)))).filter
      (fun p => decide (p.status = PlayerStatus.sitting_out) ||
        decide (p.chips < bb)),
    q.holeCards = [] := by
  intro q hq
  rw [List.mem_filter] at hq
  obtain ⟨hqU, -⟩ := hq
  rw [List.mem_filter] at hqU
  obtain ⟨hqM, -⟩ := hqU
  rw [List.mem_map] at hqM
  obtain ⟨p0, hp0m, rfl⟩ := hqM
  rw [List.mem_filter] at hp0m
  obtain ⟨hp0l, -⟩ := hp0m
  have hc := h p0 hp0l
  by_cases hst : p0.status = PlayerStatus.sitting_out
  · rw [if_pos hst]
    exact hc
  · rw [if_neg hst]
    exact hc

/-- The dealing tail of startHand accounts for exactly the shuffled deck:
the dealt hole cards, the (empty) community cards and the remaining deck
of the new state reassemble it, provided the sitting-out players carry no
stale cards. -/
theorem startHandPost_cards (state : TableState) (handId : String)
    (now : Int) (smallBlind bigBlind : Int)
    (players0 sittingOutPlayers : List Player) (shuffledDeck : List Card)
    (s1 : TableState)
    (hso : ∀ q ∈ sittingOutPlayers, q.holeCards = [])
    (h : startHandPost state handId now smallBlind bigBlind players0
      sittingOutPlayers shuffledDeck = some s1) :
    allCards s1 = shuffledDeck := by
  unfold startHandPost at h
  dsimp only at h
  split at h
  case _ =>
    rename_i sbP bbP hsbg hbbg
    set len : Int := ((players0.length : Nat) : Int) with hlendef
    set SI : Int := (if players0.length = 2 then jsMod state.dealerIndex len
      else jsMod (jsMod state.dealerIndex len + 1) len) with hSIdef
    set BI : Int := jsMod (SI + 1) len with hBIdef
    unfold getP at hsbg hbbg
    split at hsbg
    · cases hsbg
    · split at hbbg
      · cases hbbg
      · injection h with h
        subst h
        unfold allCards
        dsimp only
        have htail : (List.mapIdx
            (fun i p => { p with seatIndex := len + (i : Int) })
            sittingOutPlayers).flatMap Player.holeCards = [] :=
          flatMap_holeCards_nil _ (mapIdx_holeCards_nil _ _
            (fun i p => rfl) hso)
        rw [List.flatMap_append, htail, List.append_nil, List.append_nil]
        by_cases hbi : BI.toNat = SI.toNat
        · have hsame : bbP = sbP := by
            rw [hbi] at hbbg
            exact Option.some.inj (hbbg.symm.trans hsbg)
          rw [flatMap_holeCards_setF, flatMap_holeCards_setF]
          · exact dealHole_cards players0 shuffledDeck
          · intro a ha
            rw [hsbg] at ha
            injection ha with ha
            subst ha
            rfl
          · intro a ha
            rw [hbi, List.get?_set_eq, hsbg] at ha
            rcases Option.map_eq_some'.mp ha with ⟨x, -, rfl⟩
            rw [hsame]
        · rw [flatMap_holeCards_setF, flatMap_holeCards_setF]
          · exact dealHole_cards players0 shuffledDeck
          · intro a ha
            rw [hsbg] at ha
            injection ha with ha
            subst ha
            rfl
          · intro a ha
            rw [List.get?_set_ne _ _ (fun hx => hbi hx.symm), hbbg] at ha
            injection ha with ha
            subst ha
            rfl
  case _ =>
    cases h

/-- Awarding one pot changes only chip counts, not hole cards. -/
theorem awardPot_cards (players : List Player)
    (evals : List (String × Option HandEvaluation)) (pot : SidePot) :
    (awardPot players evals pot).flatMap Player.holeCards =
    players.flatMap Player.holeCards := by
  unfold awardPot
  dsimp only
  split
  · rfl
  · apply flatMap_holeCards_map
    intro p
    dsimp only
    split <;> rfl

/-- A fold whose step preserves the combined hole-card list preserves it
globally. -/
theorem foldl_award_cards (f : AwardAcc → SidePot → AwardAcc)
    (hf : ∀ acc pot, (f acc pot).players.flatMap Player.holeCards =
      acc.players.flatMap Player.holeCards) :
    ∀ (pots : List SidePot) (acc : AwardAcc),
    (List.foldl f acc pots).players.flatMap Player.holeCards =
    acc.players.flatMap Player.holeCards
  | [], acc => rfl
  | pot :: pots, acc => by
    rw [List.foldl_cons, foldl_award_cards f hf pots]
    exact hf acc pot

/-- The pot-award loop of resolveHand never touches hole cards. -/
theorem awardPots_cards (evals : List (String × Option HandEvaluation))
    (pots : List SidePot) (ps : List Player) :
    (awardPots evals pots ps).players.flatMap Player.holeCards =
    ps.flatMap Player.holeCards := by
  unfold awardPots
  refine foldl_award_cards _ ?_ pots _
  intro acc pot
  dsimp only
  split
  · rfl
  · split
    · dsimp only
      exact awardPot_cards _ _ _
    · dsimp only
      exact awardPot_cards _ _ _

/-- resolveHand preserves the card multiset: it moves chips, never
cards. -/
theorem resolveHand_cards (state : TableState) (now : Int) :
    allCards (resolveHand state now) = allCards state := by
  unfold resolveHand
  split
  · unfold allCards
    dsimp only
    rw [flatMap_holeCards_map]
    intro p
    split <;> rfl
  · unfold allCards
    dsimp only
    rw [flatMap_holeCards_map, awardPots_cards]
    intro p
    rfl

/-- advancePhase preserves the card multiset: it only moves the dealt
cards from the deck to the community board. -/
theorem advancePhaseFuel_cards : ∀ (fuel : Nat) (state : TableState)
    (now : Int) (r : TableState), advancePhaseFuel fuel state now = some r →
    allCards r = allCards state
  | 0, state, now, r => by
    intro h
    cases h
  | fuel + 1, state, now, r => by
    intro h
    rw [advancePhaseFuel] at h
    dsimp only at h
    split at h
    · injection h with h
      subst h
      rw [resolveHand_cards]
      unfold allCards
      dsimp only
      rw [flatMap_holeCards_map]
      intro p
      rfl
    · injection h with h
      subst h
      unfold allCards
      dsimp only
      rw [flatMap_holeCards_map]
      intro p
      rfl
    · injection h with h
      subst h
      unfold allCards
      dsimp only
      rw [flatMap_holeCards_map]
      intro p
      rfl
    · split at h
      · rw [advancePhaseFuel_cards fuel _ now r h]
        unfold allCards
        dsimp only
        rw [flatMap_holeCards_map]
        · simp only [List.append_assoc]
          rw [dealCards_append]
        · intro p
          rfl
      · rcases Option.map_eq_some'.mp h with ⟨n, -, rfl⟩
        unfold allCards
        dsimp only
        rw [flatMap_holeCards_map]
        · simp only [List.append_assoc]
          rw [dealCards_append]
        · intro p
          rfl

/-- Passing the turn does not touch cards. -/
theorem moveToNextPlayer_cards {state r : TableState}
    (h : moveToNextPlayer state = some r) : allCards r = allCards state := by
  unfold moveToNextPlayer at h
  rcases Option.map_eq_some'.mp h with ⟨n, -, rfl⟩
  rfl

/-- The shared tail of processAction preserves the card multiset when the
written-back player keeps the hole cards of the seat it replaces. -/
theorem finishAction_cards {state : TableState} {playerIndex : Int}
    {playersBase : List Player} {updated : Player} {pot currentBet : Int}
    {recAmount : Int} {agentId : String} {action : ActionType} {now : Int}
    {r : TableState}
    (hbase : playersBase.flatMap Player.holeCards =
      state.players.flatMap Player.holeCards)
    (hpb : ∀ pb, playersBase.get? playerIndex.toNat = some pb →
      updated.holeCards = pb.holeCards)
    (h : finishAction state playerIndex playersBase updated pot currentBet
      recAmount agentId action now = some (ActResult.ok r)) :
    allCards r = allCards state := by
  unfold finishAction at h
  dsimp only at h
  rcases hhr : state.handRecord with _ | hr <;> rw [hhr] at h <;>
    dsimp only at h
  case none =>
    split at h
    · injection h with h
      injection h with h
      subst h
      rw [resolveHand_cards]
      unfold allCards
      dsimp only
      rw [flatMap_holeCards_setF]
      · rw [hbase]
      · exact hpb
    · split at h
      · rcases Option.map_eq_some'.mp h with ⟨q, hq, hqr⟩
        injection hqr with hqr
        subst hqr
        unfold advancePhase at hq
        rw [advancePhaseFuel_cards 4 _ now q hq]
        unfold allCards
        dsimp only
        rw [flatMap_holeCards_setF]
        · rw [hbase]
        · exact hpb
      · rcases Option.map_eq_some'.mp h with ⟨q, hq, hqr⟩
        injection hqr with hqr
        subst hqr
        have h1 : allCards q = allCards state := by
          rw [moveToNextPlayer_cards hq]
          unfold allCards
          dsimp only
          rw [flatMap_holeCards_setF]
          · rw [hbase]
          · exact hpb
        exact (show allCards _ = allCards q from rfl).trans h1
  case some =>
    split at h
    · injection h with h
      injection h with h
      subst h
      rw [resolveHand_cards]
      unfold allCards
      dsimp only
      rw [flatMap_holeCards_setF]
      · rw [hbase]
      · exact hpb
    · split at h
      · rcases Option.map_eq_some'.mp h with ⟨q, hq, hqr⟩
        injection hqr with hqr
        subst hqr
        unfold advancePhase at hq
        rw [advancePhaseFuel_cards 4 _ now q hq]
        unfold allCards
        dsimp only
        rw [flatMap_holeCards_setF]
        · rw [hbase]
        · exact hpb
      · rcases Option.map_eq_some'.mp h with ⟨q, hq, hqr⟩
        injection hqr with hqr
        subst hqr
        have h1 : allCards q = allCards state := by
          rw [moveToNextPlayer_cards hq]
          unfold allCards
          dsimp only
          rw [flatMap_holeCards_setF]
          · rw [hbase]
          · exact hpb
        exact (show allCards _ = allCards q from rfl).trans h1

/-- Every accepted action preserves the card multiset. -/
theorem processAction_cards {state : TableState} {agentId : String}
    {action : ActionType} {amount : Option Int} {now : Int} {r : TableState}
    (h : processAction state agentId action amount now =
      some (ActResult.ok r)) :
    allCards r = allCards state := by
  unfold processAction at h
  dsimp only at h
  split at h
  · simp at h
  · split at h
    · simp at h
    · split at h
      · simp at h
      · split at h
        · cases h
        · rename_i player hget
          unfold getP at hget
          split at hget
          · cases hget
          · split at h
            · simp at h
            · split at h
              · refine finishAction_cards ?_ ?_ h
                · rfl
                · intro pb hpb
                  rw [hget] at hpb
                  injection hpb with hpb
                  subst hpb
                  rfl
              · split at h
                · simp at h
                · refine finishAction_cards ?_ ?_ h
                  · rfl
                  · intro pb hpb
                    rw [hget] at hpb
                    injection hpb with hpb
                    subst hpb
                    rfl
              · refine finishAction_cards ?_ ?_ h
                · rfl
                · intro pb hpb
                  rw [hget] at hpb
                  injection hpb with hpb
                  subst hpb
                  rfl
              · split at h
                · simp at h
                · split at h
                  · simp at h
                  · refine finishAction_cards ?_ ?_ h
                    · exact flatMap_holeCards_map _ _
                        (fun p => by split <;> rfl)
                    · intro pb hpb
                      rw [List.get?_map, hget] at hpb
                      rcases Option.map_eq_some'.mp hpb with ⟨x, hx, rfl⟩
                      injection hx with hx
                      subst hx
                      by_cases hag : player.agentId = agentId
                      · rw [if_pos hag]
                      · rw [if_neg hag]
              · refine finishAction_cards ?_ ?_ h
                · split
                  · exact flatMap_holeCards_map _ _
                      (fun p => by split <;> rfl)
                  · rfl
                · split
                  · intro pb hpb
                    rw [List.get?_map, hget] at hpb
                    rcases Option.map_eq_some'.mp hpb with ⟨x, hx, rfl⟩
                    injection hx with hx
                    subst hx
                    by_cases hag : player.agentId = agentId
                    · rw [if_pos hag]
                    · rw [if_neg hag]
                  · intro pb hpb
                    rw [hget] at hpb
                    injection hpb with hpb
                    subst hpb
                    rfl

/-- The timeout handler preserves the card multiset. -/
theorem handleTimeout_cards {state : TableState} {now : Int}
    {r : TableState} (h : handleTimeout state now = some r) :
    allCards r = allCards state := by
  unfold handleTimeout at h
  split at h
  · injection h with h
    subst h
    rfl
  · split at h
    · injection h with h
      subst h
      rfl
    · split at h
      · injection h with h
        subst h
        rfl
      · split at h
        · injection h with h
          subst h
          rfl
        · split at h
          · injection h with h
            subst h
            rfl
          · split at h
            · cases h
            · injection h with h
              subst h
              rfl
            · rename_i res hpa
              injection h with h
              subst h
              exact processAction_cards hpa

/-- **C2** (amended): no card duplication for hands started from a clean
table.  If every player's holeCards is empty before startHand and the
supplied shuffled deck is a permutation of the canonical 52-card deck,
then the multiset of all hole cards, community cards and remaining deck of
the started hand is exactly that fresh deck; and every subsequent engine
transition (accepted processAction, advancePhase, handleTimeout) preserves
that multiset exactly.  The clean-start hypothesis is necessary: the code
never clears the hole cards of players who sat out the new hand (see
C2_counterexample). -/
theorem C2_no_card_duplication :
    (∀ (state : TableState) (deck : List Card) (handId : String) (now : Int)
      (s1 : TableState), (∀ p ∈ state.players, p.holeCards = []) →
      deck.Perm createDeck →
      startHand state deck handId now = some s1 →
      s1 = state ∨ (allCards s1).Perm createDeck) ∧
    (∀ (state : TableState) (agentId : String) (action : ActionType)
      (amount : Option Int) (now : Int) (r : TableState),
      processAction state agentId action amount now =
        some (ActResult.ok r) →
      allCards r = allCards state) ∧
    (∀ (state : TableState) (now : Int) (r : TableState),
      advancePhase state now = some r → allCards r = allCards state) ∧
    (∀ (state : TableState) (now : Int) (r : TableState),
      handleTimeout state now = some r → allCards r = allCards state) := by
  refine ⟨?_, ?_, ?_, ?_⟩
  · intro state deck handId now s1 hclean hperm h
    unfold startHand at h
    split at h
    · injection h with h
      exact Or.inl h.symm
    · dsimp only at h
      split at h
      · injection h with h
        exact Or.inl h.symm
      · right
        rw [startHandPost_cards _ _ _ _ _ _ _ _ _
          (sittingOut_holeCards _ _ hclean) h]
        exact hperm
  · intro state agentId action amount now r h
    exact processAction_cards h
  · intro state now r h
    unfold advancePhase at h
    exact advancePhaseFuel_cards 4 state now r h
  · intro state now r h
    exact handleTimeout_cards h

/-- A sitting-out player still holding two stale hole cards from an
earlier hand. -/
def c2Stale : Player :=
  { agentId := "S", name := "S", chips := 0,
    holeCards := [⟨Rank.r2, Suit.h⟩, ⟨Rank.r3, Suit.h⟩], bet := 0,
    totalBet := 0, status := PlayerStatus.sitting_out, seatIndex := 2,
    hasActed := false, sitOutCount := 0 }

/-- A funded active player for the C2 states. -/
def c2Player (id : String) (seat : Int) : Player :=
  { agentId := id, name := id, chips := 300, holeCards := [], bet := 0,
    totalBet := 0, status := PlayerStatus.active, seatIndex := seat,
    hasActed := false, sitOutCount := 0 }

/-- C2 counterexample state: a waiting table with two funded players and
one sitting-out player with stale cards. -/
def c2State : TableState :=
  { tableId := "t", handId := "", phase := Phase.waiting,
    players := [c2Player "A" 0, c2Player "B" 1, c2Stale],
    communityCards := [], pot := 0, currentBet := 0, currentTurnIndex := -1,
    dealerIndex := 0, smallBlind := 10, bigBlind := 20, deck := [],
    handRecord := none, lastActionTime := 0, actionTimeoutMs := 15000,
    lastHandResult := none }

/-- **C2 counterexample**: startHand from a table with a stale-carded
sitting-out player begins a hand whose card multiset has 54 entries, not
the 52 canonical cards: the stale hole cards are never cleared.  This
state is reachable: the actor's next-hand transition moves showdown to
waiting without clearing holeCards, and resolveHand keeps them too. -/
theorem C2_counterexample :
    startHand c2State createDeck "h2" 0 ≠ some c2State ∧
    ¬ (allCards ((startHand c2State createDeck "h2" 0).getD
        c2State)).Perm createDeck := by
  constructor
  · decide
  · intro hperm
    have hlen := hperm.length_eq
    rw [show (allCards ((startHand c2State createDeck "h2" 0).getD
        c2State)).length = 54 from rfl] at hlen
    rw [show createDeck.length = 52 from rfl] at hlen
    exact absurd hlen (by decide)

/-- The same table with only the two clean players. -/
def c2Clean : TableState :=
  { c2State with players := [c2Player "A" 0, c2Player "B" 1] }

/-- The state c2Clean after startHand deals a fresh deck. -/
def c2After : TableState := (startHand c2Clean createDeck "h3" 7).getD c2Clean

/-- Witness for C2 at the concrete clean two-player table. -/
theorem C2_no_card_duplication_witness :
    c2After = c2Clean ∨ (allCards c2After).Perm createDeck :=
  C2_no_card_duplication.1 c2Clean createDeck "h3" 7 c2After
    (by decide) (List.Perm.refl _) (by decide)


/-! ## Claim C1: chip conservation -/

/-- Extract the next state from an accepted processAction result. -/
def okOf : Option ActResult → Option TableState
  | some (ActResult.ok s) => some s
  | _ => none

/-- An active player for the C1 trace. -/
def c1Player (id : String) (chips : Int) (seat : Int) : Player :=
  { agentId := id, name := id, chips := chips, holeCards := [], bet := 0,
    totalBet := 0, status := PlayerStatus.active, seatIndex := seat,
    hasActed := false, sitOutCount := 0 }

/-- C1 failing input: a waiting five-player table, three deep stacks and
two short stacks, 970 chips in play. -/
def c1State : TableState :=
  { tableId := "t", handId := "", phase := Phase.waiting,
    players := [c1Player "A" 300 0, c1Player "B" 300 1, c1Player "C" 300 2,
      c1Player "D" 50 3, c1Player "E" 20 4],
    communityCards := [], pot := 0, currentBet := 0, currentTurnIndex := -1,
    dealerIndex := 0, smallBlind := 10, bigBlind := 20, deck := [],
    handRecord := none, lastActionTime := 0, actionTimeoutMs := 15000,
    lastHandResult := none }

/-- The chips a state accounts for: every stack plus the pot. -/
def chipTotal (state : TableState) : Int :=
  (state.players.map Player.chips).sum + state.pot

/-- State 1 of the C1 trace. -/
def c1s1 : TableState :=
  { tableId := "t", handId := "h", phase := Poker.Phase.preflop, players := [{ agentId := "A", name := "A", chips := 300, holeCards := [{ rank := Poker.Rank.r2, suit := Poker.Suit.h }, { rank := Poker.Rank.r3, suit := Poker.Suit.h }], bet := 0, totalBet := 0, status := Poker.PlayerStatus.active, seatIndex := 0, hasActed := false, sitOutCount := 0 }, { agentId := "B", name := "B", chips := 290, holeCards := [{ rank := Poker.Rank.r4, suit := Poker.Suit.h }, { rank := Poker.Rank.r5, suit := Poker.Suit.h }], bet := 10, totalBet := 10, status := Poker.PlayerStatus.active, seatIndex := 1, hasActed := false, sitOutCount := 0 }, { agentId := "C", name := "C", chips := 280, holeCards := [{ rank := Poker.Rank.r6, suit := Poker.Suit.h }, { rank := Poker.Rank.r7, suit := Poker.Suit.h }], bet := 20, totalBet := 20, status := Poker.PlayerStatus.active, seatIndex := 2, hasActed := false, sitOutCount := 0 }, { agentId := "D", name := "D", chips := 50, holeCards := [{ rank := Poker.Rank.r8, suit := Poker.Suit.h }, { rank := Poker.Rank.r9, suit := Poker.Suit.h }], bet := 0, totalBet := 0, status := Poker.PlayerStatus.active, seatIndex := 3, hasActed := false, sitOutCount := 0 }, { agentId := "E", name := "E", chips := 20, holeCards := [{ rank := Poker.Rank.rT, suit := Poker.Suit.h }, { rank := Poker.Rank.rJ, suit := Poker.Suit.h }], bet := 0, totalBet := 0, status := Poker.PlayerStatus.active, seatIndex := 4, hasActed := false, sitOutCount := 0 }], communityCards := [], pot := 30, currentBet := 20, currentTurnIndex := 3, dealerIndex := 0, smallBlind := 10, bigBlind := 20, deck := [{ rank := Poker.Rank.rQ, suit := Poker.Suit.h }, { rank := Poker.Rank.rK, suit := Poker.Suit.h }, { rank := Poker.Rank.rA, suit := Poker.Suit.h }, { rank := Poker.Rank.r2, suit := Poker.Suit.d }, { rank := Poker.Rank.r3, suit := Poker.Suit.d }, { rank := Poker.Rank.r4, suit := Poker.Suit.d }, { rank := Poker.Rank.r5, suit := Poker.Suit.d }, { rank := Poker.Rank.r6, suit := Poker.Suit.d }, { rank := Poker.Rank.r7, suit := Poker.Suit.d }, { rank := Poker.Rank.r8, suit := Poker.Suit.d }, { rank := Poker.Rank.r9, suit := Poker.Suit.d }, { rank := Poker.Rank.rT, suit := Poker.Suit.d }, { rank := Poker.Rank.rJ, suit := Poker.Suit.d }, { rank := Poker.Rank.rQ, suit := Poker.Suit.d }, { rank := Poker.Rank.rK, suit := Poker.Suit.d }, { rank := Poker.Rank.rA, suit := Poker.Suit.d }, { rank := Poker.Rank.r2, suit := Poker.Suit.c }, { rank := Poker.Rank.r3, suit := Poker.Suit.c }, { rank := Poker.Rank.r4, suit := Poker.Suit.c }, { rank := Poker.Rank.r5, suit := Poker.Suit.c }, { rank := Poker.Rank.r6, suit := Poker.Suit.c }, { rank := Poker.Rank.r7, suit := Poker.Suit.c }, { rank := Poker.Rank.r8, suit := Poker.Suit.c }, { rank := Poker.Rank.r9, suit := Poker.Suit.c }, { rank := Poker.Rank.rT, suit := Poker.Suit.c }, { rank := Poker.Rank.rJ, suit := Poker.Suit.c }, { rank := Poker.Rank.rQ, suit := Poker.Suit.c }, { rank := Poker.Rank.rK, suit := Poker.Suit.c }, { rank := Poker.Rank.rA, suit := Poker.Suit.c }, { rank := Poker.Rank.r2, suit := Poker.Suit.s }, { rank := Poker.Rank.r3, suit := Poker.Suit.s }, { rank := Poker.Rank.r4, suit := Poker.Suit.s }, { rank := Poker.Rank.r5, suit := Poker.Suit.s }, { rank := Poker.Rank.r6, suit := Poker.Suit.s }, { rank := Poker.Rank.r7, suit := Poker.Suit.s }, { rank := Poker.Rank.r8, suit := Poker.Suit.s }, { rank := Poker.Rank.r9, suit := Poker.Suit.s }, { rank := Poker.Rank.rT, suit := Poker.Suit.s }, { rank := Poker.Rank.rJ, suit := Poker.Suit.s }, { rank := Poker.Rank.rQ, suit := Poker.Suit.s }, { rank := Poker.Rank.rK, suit := Poker.Suit.s }, { rank := Poker.Rank.rA, suit := Poker.Suit.s }], handRecord := some { handId := "h", tableId := "t", players := [{ id := "A", name := "A", startChips := 300 }, { id := "B", name := "B", startChips := 300 }, { id := "C", name := "C", startChips := 300 }, { id := "D", name := "D", startChips := 50 }, { id := "E", name := "E", startChips := 20 }], holeCards := [("A", [{ rank := Poker.Rank.r2, suit := Poker.Suit.h }, { rank := Poker.Rank.r3, suit := Poker.Suit.h }]), ("B", [{ rank := Poker.Rank.r4, suit := Poker.Suit.h }, { rank := Poker.Rank.r5, suit := Poker.Suit.h }]), ("C", [{ rank := Poker.Rank.r6, suit := Poker.Suit.h }, { rank := Poker.Rank.r7, suit := Poker.Suit.h }]), ("D", [{ rank := Poker.Rank.r8, suit := Poker.Suit.h }, { rank := Poker.Rank.r9, suit := Poker.Suit.h }]), ("E", [{ rank := Poker.Rank.rT, suit := Poker.Suit.h }, { rank := Poker.Rank.rJ, suit := Poker.Suit.h }])], communityCards := [], actions := [], chat := [], pot := 30, winnerId := none, winnerName := none, winningHand := none, startedAt := 0, endedAt := 0 }, lastActionTime := 0, actionTimeoutMs := 15000, lastHandResult := none }

/-- State 2 of the C1 trace. -/
def c1s2 : TableState :=
  { tableId := "t", handId := "h", phase := Poker.Phase.preflop, players := [{ agentId := "A", name := "A", chips := 300, holeCards := [{ rank := Poker.Rank.r2, suit := Poker.Suit.h }, { rank := Poker.Rank.r3, suit := Poker.Suit.h }], bet := 0, totalBet := 0, status := Poker.PlayerStatus.active, seatIndex := 0, hasActed := false, sitOutCount := 0 }, { agentId := "B", name := "B", chips := 290, holeCards := [{ rank := Poker.Rank.r4, suit := Poker.Suit.h }, { rank := Poker.Rank.r5, suit := Poker.Suit.h }], bet := 10, totalBet := 10, status := Poker.PlayerStatus.active, seatIndex := 1, hasActed := false, sitOutCount := 0 }, { agentId := "C", name := "C", chips := 280, holeCards := [{ rank := Poker.Rank.r6, suit := Poker.Suit.h }, { rank := Poker.Rank.r7, suit := Poker.Suit.h }], bet := 20, totalBet := 20, status := Poker.PlayerStatus.active, seatIndex := 2, hasActed := false, sitOutCount := 0 }, { agentId := "D", name := "D", chips := 0, holeCards := [{ rank := Poker.Rank.r8, suit := Poker.Suit.h }, { rank := Poker.Rank.r9, suit := Poker.Suit.h }], bet := 50, totalBet := 50, status := Poker.PlayerStatus.all_in, seatIndex := 3, hasActed := true, sitOutCount := 0 }, { agentId := "E", name := "E", chips := 20, holeCards := [{ rank := Poker.Rank.rT, suit := Poker.Suit.h }, { rank := Poker.Rank.rJ, suit := Poker.Suit.h }], bet := 0, totalBet := 0, status := Poker.PlayerStatus.active, seatIndex := 4, hasActed := false, sitOutCount := 0 }], communityCards := [], pot := 80, currentBet := 50, currentTurnIndex := 4, dealerIndex := 0, smallBlind := 10, bigBlind := 20, deck := [{ rank := Poker.Rank.rQ, suit := Poker.Suit.h }, { rank := Poker.Rank.rK, suit := Poker.Suit.h }, { rank := Poker.Rank.rA, suit := Poker.Suit.h }, { rank := Poker.Rank.r2, suit := Poker.Suit.d }, { rank := Poker.Rank.r3, suit := Poker.Suit.d }, { rank := Poker.Rank.r4, suit := Poker.Suit.d }, { rank := Poker.Rank.r5, suit := Poker.Suit.d }, { rank := Poker.Rank.r6, suit := Poker.Suit.d }, { rank := Poker.Rank.r7, suit := Poker.Suit.d }, { rank := Poker.Rank.r8, suit := Poker.Suit.d }, { rank := Poker.Rank.r9, suit := Poker.Suit.d }, { rank := Poker.Rank.rT, suit := Poker.Suit.d }, { rank := Poker.Rank.rJ, suit := Poker.Suit.d }, { rank := Poker.Rank.rQ, suit := Poker.Suit.d }, { rank := Poker.Rank.rK, suit := Poker.Suit.d }, { rank := Poker.Rank.rA, suit := Poker.Suit.d }, { rank := Poker.Rank.r2, suit := Poker.Suit.c }, { rank := Poker.Rank.r3, suit := Poker.Suit.c }, { rank := Poker.Rank.r4, suit := Poker.Suit.c }, { rank := Poker.Rank.r5, suit := Poker.Suit.c }, { rank := Poker.Rank.r6, suit := Poker.Suit.c }, { rank := Poker.Rank.r7, suit := Poker.Suit.c }, { rank := Poker.Rank.r8, suit := Poker.Suit.c }, { rank := Poker.Rank.r9, suit := Poker.Suit.c }, { rank := Poker.Rank.rT, suit := Poker.Suit.c }, { rank := Poker.Rank.rJ, suit := Poker.Suit.c }, { rank := Poker.Rank.rQ, suit := Poker.Suit.c }, { rank := Poker.Rank.rK, suit := Poker.Suit.c }, { rank := Poker.Rank.rA, suit := Poker.Suit.c }, { rank := Poker.Rank.r2, suit := Poker.Suit.s }, { rank := Poker.Rank.r3, suit := Poker.Suit.s }, { rank := Poker.Rank.r4, suit := Poker.Suit.s }, { rank := Poker.Rank.r5, suit := Poker.Suit.s }, { rank := Poker.Rank.r6, suit := Poker.Suit.s }, { rank := Poker.Rank.r7, suit := Poker.Suit.s }, { rank := Poker.Rank.r8, suit := Poker.Suit.s }, { rank := Poker.Rank.r9, suit := Poker.Suit.s }, { rank := Poker.Rank.rT, suit := Poker.Suit.s }, { rank := Poker.Rank.rJ, suit := Poker.Suit.s }, { rank := Poker.Rank.rQ, suit := Poker.Suit.s }, { rank := Poker.Rank.rK, suit := Poker.Suit.s }, { rank := Poker.Rank.rA, suit := Poker.Suit.s }], handRecord := some { handId := "h", tableId := "t", players := [{ id := "A", name := "A", startChips := 300 }, { id := "B", name := "B", startChips := 300 }, { id := "C", name := "C", startChips := 300 }, { id := "D", name := "D", startChips := 50 }, { id := "E", name := "E", startChips := 20 }], holeCards := [("A", [{ rank := Poker.Rank.r2, suit := Poker.Suit.h }, { rank := Poker.Rank.r3, suit := Poker.Suit.h }]), ("B", [{ rank := Poker.Rank.r4, suit := Poker.Suit.h }, { rank := Poker.Rank.r5, suit := Poker.Suit.h }]), ("C", [{ rank := Poker.Rank.r6, suit := Poker.Suit.h }, { rank := Poker.Rank.r7, suit := Poker.Suit.h }]), ("D", [{ rank := Poker.Rank.r8, suit := Poker.Suit.h }, { rank := Poker.Rank.r9, suit := Poker.Suit.h }]), ("E", [{ rank := Poker.Rank.rT, suit := Poker.Suit.h }, { rank := Poker.Rank.rJ, suit := Poker.Suit.h }])], communityCards := [], actions := [{ agentId := "D", action := Poker.ActionType.all_in, amount := 50, timestamp := 0 }], chat := [], pot := 80, winnerId := none, winnerName := none, winningHand := none, startedAt := 0, endedAt := 0 }, lastActionTime := 0, actionTimeoutMs := 15000, lastHandResult := none }

/-- State 3 of the C1 trace. -/
def c1s3 : TableState :=
  { tableId := "t", handId := "h", phase := Poker.Phase.preflop, players := [{ agentId := "A", name := "A", chips := 300, holeCards := [{ rank := Poker.Rank.r2, suit := Poker.Suit.h }, { rank := Poker.Rank.r3, suit := Poker.Suit.h }], bet := 0, totalBet := 0, status := Poker.PlayerStatus.active, seatIndex := 0, hasActed := false, sitOutCount := 0 }, { agentId := "B", name := "B", chips := 290, holeCards := [{ rank := Poker.Rank.r4, suit := Poker.Suit.h }, { rank := Poker.Rank.r5, suit := Poker.Suit.h }], bet := 10, totalBet := 10, status := Poker.PlayerStatus.active, seatIndex := 1, hasActed := false, sitOutCount := 0 }, { agentId := "C", name := "C", chips := 280, holeCards := [{ rank := Poker.Rank.r6, suit := Poker.Suit.h }, { rank := Poker.Rank.r7, suit := Poker.Suit.h }], bet := 20, totalBet := 20, status := Poker.PlayerStatus.active, seatIndex := 2, hasActed := false, sitOutCount := 0 }, { agentId := "D", name := "D", chips := 0, holeCards := [{ rank := Poker.Rank.r8, suit := Poker.Suit.h }, { rank := Poker.Rank.r9, suit := Poker.Suit.h }], bet := 50, totalBet := 50, status := Poker.PlayerStatus.all_in, seatIndex := 3, hasActed := true, sitOutCount := 0 }, { agentId := "E", name := "E", chips := 0, holeCards := [{ rank := Poker.Rank.rT, suit := Poker.Suit.h }, { rank := Poker.Rank.rJ, suit := Poker.Suit.h }], bet := 20, totalBet := 20, status := Poker.PlayerStatus.all_in, seatIndex := 4, hasActed := true, sitOutCount := 0 }], communityCards := [], pot := 100, currentBet := 50, currentTurnIndex := 0, dealerIndex := 0, smallBlind := 10, bigBlind := 20, deck := [{ rank := Poker.Rank.rQ, suit := Poker.Suit.h }, { rank := Poker.Rank.rK, suit := Poker.Suit.h }, { rank := Poker.Rank.rA, suit := Poker.Suit.h }, { rank := Poker.Rank.r2, suit := Poker.Suit.d }, { rank := Poker.Rank.r3, suit := Poker.Suit.d }, { rank := Poker.Rank.r4, suit := Poker.Suit.d }, { rank := Poker.Rank.r5, suit := Poker.Suit.d }, { rank := Poker.Rank.r6, suit := Poker.Suit.d }, { rank := Poker.Rank.r7, suit := Poker.Suit.d }, { rank := Poker.Rank.r8, suit := Poker.Suit.d }, { rank := Poker.Rank.r9, suit := Poker.Suit.d }, { rank := Poker.Rank.rT, suit := Poker.Suit.d }, { rank := Poker.Rank.rJ, suit := Poker.Suit.d }, { rank := Poker.Rank.rQ, suit := Poker.Suit.d }, { rank := Poker.Rank.rK, suit := Poker.Suit.d }, { rank := Poker.Rank.rA, suit := Poker.Suit.d }, { rank := Poker.Rank.r2, suit := Poker.Suit.c }, { rank := Poker.Rank.r3, suit := Poker.Suit.c }, { rank := Poker.Rank.r4, suit := Poker.Suit.c }, { rank := Poker.Rank.r5, suit := Poker.Suit.c }, { rank := Poker.Rank.r6, suit := Poker.Suit.c }, { rank := Poker.Rank.r7, suit := Poker.Suit.c }, { rank := Poker.Rank.r8, suit := Poker.Suit.c }, { rank := Poker.Rank.r9, suit := Poker.Suit.c }, { rank := Poker.Rank.rT, suit := Poker.Suit.c }, { rank := Poker.Rank.rJ, suit := Poker.Suit.c }, { rank := Poker.Rank.rQ, suit := Poker.Suit.c }, { rank := Poker.Rank.rK, suit := Poker.Suit.c }, { rank := Poker.Rank.rA, suit := Poker.Suit.c }, { rank := Poker.Rank.r2, suit := Poker.Suit.s }, { rank := Poker.Rank.r3, suit := Poker.Suit.s }, { rank := Poker.Rank.r4, suit := Poker.Suit.s }, { rank := Poker.Rank.r5, suit := Poker.Suit.s }, { rank := Poker.Rank.r6, suit := Poker.Suit.s }, { rank := Poker.Rank.r7, suit := Poker.Suit.s }, { rank := Poker.Rank.r8, suit := Poker.Suit.s }, { rank := Poker.Rank.r9, suit := Poker.Suit.s }, { rank := Poker.Rank.rT, suit := Poker.Suit.s }, { rank := Poker.Rank.rJ, suit := Poker.Suit.s }, { rank := Poker.Rank.rQ, suit := Poker.Suit.s }, { rank := Poker.Rank.rK, suit := Poker.Suit.s }, { rank := Poker.Rank.rA, suit := Poker.Suit.s }], handRecord := some { handId := "h", tableId := "t", players := [{ id := "A", name := "A", startChips := 300 }, { id := "B", name := "B", startChips := 300 }, { id := "C", name := "C", startChips := 300 }, { id := "D", name := "D", startChips := 50 }, { id := "E", name := "E", startChips := 20 }], holeCards := [("A", [{ rank := Poker.Rank.r2, suit := Poker.Suit.h }, { rank := Poker.Rank.r3, suit := Poker.Suit.h }]), ("B", [{ rank := Poker.Rank.r4, suit := Poker.Suit.h }, { rank := Poker.Rank.r5, suit := Poker.Suit.h }]), ("C", [{ rank := Poker.Rank.r6, suit := Poker.Suit.h }, { rank := Poker.Rank.r7, suit := Poker.Suit.h }]), ("D", [{ rank := Poker.Rank.r8, suit := Poker.Suit.h }, { rank := Poker.Rank.r9, suit := Poker.Suit.h }]), ("E", [{ rank := Poker.Rank.rT, suit := Poker.Suit.h }, { rank := Poker.Rank.rJ, suit := Poker.Suit.h }])], communityCards := [], actions := [{ agentId := "D", action := Poker.ActionType.all_in, amount := 50, timestamp := 0 }, { agentId := "E", action := Poker.ActionType.all_in, amount := 20, timestamp := 0 }], chat := [], pot := 100, winnerId := none, winnerName := none, winningHand := none, startedAt := 0, endedAt := 0 }, lastActionTime := 0, actionTimeoutMs := 15000, lastHandResult := none }

/-- State 4 of the C1 trace. -/
def c1s4 : TableState :=
  { tableId := "t", handId := "h", phase := Poker.Phase.preflop, players := [{ agentId := "A", name := "A", chips := 100, holeCards := [{ rank := Poker.Rank.r2, suit := Poker.Suit.h }, { rank := Poker.Rank.r3, suit := Poker.Suit.h }], bet := 200, totalBet := 200, status := Poker.PlayerStatus.active, seatIndex := 0, hasActed := true, sitOutCount := 0 }, { agentId := "B", name := "B", chips := 290, holeCards := [{ rank := Poker.Rank.r4, suit := Poker.Suit.h }, { rank := Poker.Rank.r5, suit := Poker.Suit.h }], bet := 10, totalBet := 10, status := Poker.PlayerStatus.active, seatIndex := 1, hasActed := false, sitOutCount := 0 }, { agentId := "C", name := "C", chips := 280, holeCards := [{ rank := Poker.Rank.r6, suit := Poker.Suit.h }, { rank := Poker.Rank.r7, suit := Poker.Suit.h }], bet := 20, totalBet := 20, status := Poker.PlayerStatus.active, seatIndex := 2, hasActed := false, sitOutCount := 0 }, { agentId := "D", name := "D", chips := 0, holeCards := [{ rank := Poker.Rank.r8, suit := Poker.Suit.h }, { rank := Poker.Rank.r9, suit := Poker.Suit.h }], bet := 50, totalBet := 50, status := Poker.PlayerStatus.all_in, seatIndex := 3, hasActed := true, sitOutCount := 0 }, { agentId := "E", name := "E", chips := 0, holeCards := [{ rank := Poker.Rank.rT, suit := Poker.Suit.h }, { rank := Poker.Rank.rJ, suit := Poker.Suit.h }], bet := 20, totalBet := 20, status := Poker.PlayerStatus.all_in, seatIndex := 4, hasActed := true, sitOutCount := 0 }], communityCards := [], pot := 300, currentBet := 200, currentTurnIndex := 1, dealerIndex := 0, smallBlind := 10, bigBlind := 20, deck := [{ rank := Poker.Rank.rQ, suit := Poker.Suit.h }, { rank := Poker.Rank.rK, suit := Poker.Suit.h }, { rank := Poker.Rank.rA, suit := Poker.Suit.h }, { rank := Poker.Rank.r2, suit := Poker.Suit.d }, { rank := Poker.Rank.r3, suit := Poker.Suit.d }, { rank := Poker.Rank.r4, suit := Poker.Suit.d }, { rank := Poker.Rank.r5, suit := Poker.Suit.d }, { rank := Poker.Rank.r6, suit := Poker.Suit.d }, { rank := Poker.Rank.r7, suit := Poker.Suit.d }, { rank := Poker.Rank.r8, suit := Poker.Suit.d }, { rank := Poker.Rank.r9, suit := Poker.Suit.d }, { rank := Poker.Rank.rT, suit := Poker.Suit.d }, { rank := Poker.Rank.rJ, suit := Poker.Suit.d }, { rank := Poker.Rank.rQ, suit := Poker.Suit.d }, { rank := Poker.Rank.rK, suit := Poker.Suit.d }, { rank := Poker.Rank.rA, suit := Poker.Suit.d }, { rank := Poker.Rank.r2, suit := Poker.Suit.c }, { rank := Poker.Rank.r3, suit := Poker.Suit.c }, { rank := Poker.Rank.r4, suit := Poker.Suit.c }, { rank := Poker.Rank.r5, suit := Poker.Suit.c }, { rank := Poker.Rank.r6, suit := Poker.Suit.c }, { rank := Poker.Rank.r7, suit := Poker.Suit.c }, { rank := Poker.Rank.r8, suit := Poker.Suit.c }, { rank := Poker.Rank.r9, suit := Poker.Suit.c }, { rank := Poker.Rank.rT, suit := Poker.Suit.c }, { rank := Poker.Rank.rJ, suit := Poker.Suit.c }, { rank := Poker.Rank.rQ, suit := Poker.Suit.c }, { rank := Poker.Rank.rK, suit := Poker.Suit.c }, { rank := Poker.Rank.rA, suit := Poker.Suit.c }, { rank := Poker.Rank.r2, suit := Poker.Suit.s }, { rank := Poker.Rank.r3, suit := Poker.Suit.s }, { rank := Poker.Rank.r4, suit := Poker.Suit.s }, { rank := Poker.Rank.r5, suit := Poker.Suit.s }, { rank := Poker.Rank.r6, suit := Poker.Suit.s }, { rank := Poker.Rank.r7, suit := Poker.Suit.s }, { rank := Poker.Rank.r8, suit := Poker.Suit.s }, { rank := Poker.Rank.r9, suit := Poker.Suit.s }, { rank := Poker.Rank.rT, suit := Poker.Suit.s }, { rank := Poker.Rank.rJ, suit := Poker.Suit.s }, { rank := Poker.Rank.rQ, suit := Poker.Suit.s }, { rank := Poker.Rank.rK, suit := Poker.Suit.s }, { rank := Poker.Rank.rA, suit := Poker.Suit.s }], handRecord := some { handId := "h", tableId := "t", players := [{ id := "A", name := "A", startChips := 300 }, { id := "B", name := "B", startChips := 300 }, { id := "C", name := "C", startChips := 300 }, { id := "D", name := "D", startChips := 50 }, { id := "E", name := "E", startChips := 20 }], holeCards := [("A", [{ rank := Poker.Rank.r2, suit := Poker.Suit.h }, { rank := Poker.Rank.r3, suit := Poker.Suit.h }]), ("B", [{ rank := Poker.Rank.r4, suit := Poker.Suit.h }, { rank := Poker.Rank.r5, suit := Poker.Suit.h }]), ("C", [{ rank := Poker.Rank.r6, suit := Poker.Suit.h }, { rank := Poker.Rank.r7, suit := Poker.Suit.h }]), ("D", [{ rank := Poker.Rank.r8, suit := Poker.Suit.h }, { rank := Poker.Rank.r9, suit := Poker.Suit.h }]), ("E", [{ rank := Poker.Rank.rT, suit := Poker.Suit.h }, { rank := Poker.Rank.rJ, suit := Poker.Suit.h }])], communityCards := [], actions := [{ agentId := "D", action := Poker.ActionType.all_in, amount := 50, timestamp := 0 }, { agentId := "E", action := Poker.ActionType.all_in, amount := 20, timestamp := 0 }, { agentId := "A", action := Poker.ActionType.raise, amount := 200, timestamp := 0 }], chat := [], pot := 300, winnerId := none, winnerName := none, winningHand := none, startedAt := 0, endedAt := 0 }, lastActionTime := 0, actionTimeoutMs := 15000, lastHandResult := none }

/-- State 5 of the C1 trace. -/
def c1s5 : TableState :=
  { tableId := "t", handId := "h", phase := Poker.Phase.preflop, players := [{ agentId := "A", name := "A", chips := 100, holeCards := [{ rank := Poker.Rank.r2, suit := Poker.Suit.h }, { rank := Poker.Rank.r3, suit := Poker.Suit.h }], bet := 200, totalBet := 200, status := Poker.PlayerStatus.active, seatIndex := 0, hasActed := true, sitOutCount := 0 }, { agentId := "B", name := "B", chips := 100, holeCards := [{ rank := Poker.Rank.r4, suit := Poker.Suit.h }, { rank := Poker.Rank.r5, suit := Poker.Suit.h }], bet := 200, totalBet := 200, status := Poker.PlayerStatus.active, seatIndex := 1, hasActed := true, sitOutCount := 0 }, { agentId := "C", name := "C", chips := 280, holeCards := [{ rank := Poker.Rank.r6, suit := Poker.Suit.h }, { rank := Poker.Rank.r7, suit := Poker.Suit.h }], bet := 20, totalBet := 20, status := Poker.PlayerStatus.active, seatIndex := 2, hasActed := false, sitOutCount := 0 }, { agentId := "D", name := "D", chips := 0, holeCards := [{ rank := Poker.Rank.r8, suit := Poker.Suit.h }, { rank := Poker.Rank.r9, suit := Poker.Suit.h }], bet := 50, totalBet := 50, status := Poker.PlayerStatus.all_in, seatIndex := 3, hasActed := true, sitOutCount := 0 }, { agentId := "E", name := "E", chips := 0, holeCards := [{ rank := Poker.Rank.rT, suit := Poker.Suit.h }, { rank := Poker.Rank.rJ, suit := Poker.Suit.h }], bet := 20, totalBet := 20, status := Poker.PlayerStatus.all_in, seatIndex := 4, hasActed := true, sitOutCount := 0 }], communityCards := [], pot := 490, currentBet := 200, currentTurnIndex := 2, dealerIndex := 0, smallBlind := 10, bigBlind := 20, deck := [{ rank := Poker.Rank.rQ, suit := Poker.Suit.h }, { rank := Poker.Rank.rK, suit := Poker.Suit.h }, { rank := Poker.Rank.rA, suit := Poker.Suit.h }, { rank := Poker.Rank.r2, suit := Poker.Suit.d }, { rank := Poker.Rank.r3, suit := Poker.Suit.d }, { rank := Poker.Rank.r4, suit := Poker.Suit.d }, { rank := Poker.Rank.r5, suit := Poker.Suit.d }, { rank := Poker.Rank.r6, suit := Poker.Suit.d }, { rank := Poker.Rank.r7, suit := Poker.Suit.d }, { rank := Poker.Rank.r8, suit := Poker.Suit.d }, { rank := Poker.Rank.r9, suit := Poker.Suit.d }, { rank := Poker.Rank.rT, suit := Poker.Suit.d }, { rank := Poker.Rank.rJ, suit := Poker.Suit.d }, { rank := Poker.Rank.rQ, suit := Poker.Suit.d }, { rank := Poker.Rank.rK, suit := Poker.Suit.d }, { rank := Poker.Rank.rA, suit := Poker.Suit.d }, { rank := Poker.Rank.r2, suit := Poker.Suit.c }, { rank := Poker.Rank.r3, suit := Poker.Suit.c }, { rank := Poker.Rank.r4, suit := Poker.Suit.c }, { rank := Poker.Rank.r5, suit := Poker.Suit.c }, { rank := Poker.Rank.r6, suit := Poker.Suit.c }, { rank := Poker.Rank.r7, suit := Poker.Suit.c }, { rank := Poker.Rank.r8, suit := Poker.Suit.c }, { rank := Poker.Rank.r9, suit := Poker.Suit.c }, { rank := Poker.Rank.rT, suit := Poker.Suit.c }, { rank := Poker.Rank.rJ, suit := Poker.Suit.c }, { rank := Poker.Rank.rQ, suit := Poker.Suit.c }, { rank := Poker.Rank.rK, suit := Poker.Suit.c }, { rank := Poker.Rank.rA, suit := Poker.Suit.c }, { rank := Poker.Rank.r2, suit := Poker.Suit.s }, { rank := Poker.Rank.r3, suit := Poker.Suit.s }, { rank := Poker.Rank.r4, suit := Poker.Suit.s }, { rank := Poker.Rank.r5, suit := Poker.Suit.s }, { rank := Poker.Rank.r6, suit := Poker.Suit.s }, { rank := Poker.Rank.r7, suit := Poker.Suit.s }, { rank := Poker.Rank.r8, suit := Poker.Suit.s }, { rank := Poker.Rank.r9, suit := Poker.Suit.s }, { rank := Poker.Rank.rT, suit := Poker.Suit.s }, { rank := Poker.Rank.rJ, suit := Poker.Suit.s }, { rank := Poker.Rank.rQ, suit := Poker.Suit.s }, { rank := Poker.Rank.rK, suit := Poker.Suit.s }, { rank := Poker.Rank.rA, suit := Poker.Suit.s }], handRecord := some { handId := "h", tableId := "t", players := [{ id := "A", name := "A", startChips := 300 }, { id := "B", name := "B", startChips := 300 }, { id := "C", name := "C", startChips := 300 }, { id := "D", name := "D", startChips := 50 }, { id := "E", name := "E", startChips := 20 }], holeCards := [("A", [{ rank := Poker.Rank.r2, suit := Poker.Suit.h }, { rank := Poker.Rank.r3, suit := Poker.Suit.h }]), ("B", [{ rank := Poker.Rank.r4, suit := Poker.Suit.h }, { rank := Poker.Rank.r5, suit := Poker.Suit.h }]), ("C", [{ rank := Poker.Rank.r6, suit := Poker.Suit.h }, { rank := Poker.Rank.r7, suit := Poker.Suit.h }]), ("D", [{ rank := Poker.Rank.r8, suit := Poker.Suit.h }, { rank := Poker.Rank.r9, suit := Poker.Suit.h }]), ("E", [{ rank := Poker.Rank.rT, suit := Poker.Suit.h }, { rank := Poker.Rank.rJ, suit := Poker.Suit.h }])], communityCards := [], actions := [{ agentId := "D", action := Poker.ActionType.all_in, amount := 50, timestamp := 0 }, { agentId := "E", action := Poker.ActionType.all_in, amount := 20, timestamp := 0 }, { agentId := "A", action := Poker.ActionType.raise, amount := 200, timestamp := 0 }, { agentId := "B", action := Poker.ActionType.call, amount := 190, timestamp := 0 }], chat := [], pot := 490, winnerId := none, winnerName := none, winningHand := none, startedAt := 0, endedAt := 0 }, lastActionTime := 0, actionTimeoutMs := 15000, lastHandResult := none }

/-- State 6 of the C1 trace. -/
def c1s6 : TableState :=
  { tableId := "t", handId := "h", phase := Poker.Phase.flop, players := [{ agentId := "A", name := "A", chips := 100, holeCards := [{ rank := Poker.Rank.r2, suit := Poker.Suit.h }, { rank := Poker.Rank.r3, suit := Poker.Suit.h }], bet := 0, totalBet := 200, status := Poker.PlayerStatus.active, seatIndex := 0, hasActed := false, sitOutCount := 0 }, { agentId := "B", name := "B", chips := 100, holeCards := [{ rank := Poker.Rank.r4, suit := Poker.Suit.h }, { rank := Poker.Rank.r5, suit := Poker.Suit.h }], bet := 0, totalBet := 200, status := Poker.PlayerStatus.active, seatIndex := 1, hasActed := false, sitOutCount := 0 }, { agentId := "C", name := "C", chips := 280, holeCards := [{ rank := Poker.Rank.r6, suit := Poker.Suit.h }, { rank := Poker.Rank.r7, suit := Poker.Suit.h }], bet := 0, totalBet := 20, status := Poker.PlayerStatus.folded, seatIndex := 2, hasActed := true, sitOutCount := 0 }, { agentId := "D", name := "D", chips := 0, holeCards := [{ rank := Poker.Rank.r8, suit := Poker.Suit.h }, { rank := Poker.Rank.r9, suit := Poker.Suit.h }], bet := 0, totalBet := 50, status := Poker.PlayerStatus.all_in, seatIndex := 3, hasActed := true, sitOutCount := 0 }, { agentId := "E", name := "E", chips := 0, holeCards := [{ rank := Poker.Rank.rT, suit := Poker.Suit.h }, { rank := Poker.Rank.rJ, suit := Poker.Suit.h }], bet := 0, totalBet := 20, status := Poker.PlayerStatus.all_in, seatIndex := 4, hasActed := true, sitOutCount := 0 }], communityCards := [{ rank := Poker.Rank.rQ, suit := Poker.Suit.h }, { rank := Poker.Rank.rK, suit := Poker.Suit.h }, { rank := Poker.Rank.rA, suit := Poker.Suit.h }], pot := 490, currentBet := 0, currentTurnIndex := 1, dealerIndex := 0, smallBlind := 10, bigBlind := 20, deck := [{ rank := Poker.Rank.r2, suit := Poker.Suit.d }, { rank := Poker.Rank.r3, suit := Poker.Suit.d }, { rank := Poker.Rank.r4, suit := Poker.Suit.d }, { rank := Poker.Rank.r5, suit := Poker.Suit.d }, { rank := Poker.Rank.r6, suit := Poker.Suit.d }, { rank := Poker.Rank.r7, suit := Poker.Suit.d }, { rank := Poker.Rank.r8, suit := Poker.Suit.d }, { rank := Poker.Rank.r9, suit := Poker.Suit.d }, { rank := Poker.Rank.rT, suit := Poker.Suit.d }, { rank := Poker.Rank.rJ, suit := Poker.Suit.d }, { rank := Poker.Rank.rQ, suit := Poker.Suit.d }, { rank := Poker.Rank.rK, suit := Poker.Suit.d }, { rank := Poker.Rank.rA, suit := Poker.Suit.d }, { rank := Poker.Rank.r2, suit := Poker.Suit.c }, { rank := Poker.Rank.r3, suit := Poker.Suit.c }, { rank := Poker.Rank.r4, suit := Poker.Suit.c }, { rank := Poker.Rank.r5, suit := Poker.Suit.c }, { rank := Poker.Rank.r6, suit := Poker.Suit.c }, { rank := Poker.Rank.r7, suit := Poker.Suit.c }, { rank := Poker.Rank.r8, suit := Poker.Suit.c }, { rank := Poker.Rank.r9, suit := Poker.Suit.c }, { rank := Poker.Rank.rT, suit := Poker.Suit.c }, { rank := Poker.Rank.rJ, suit := Poker.Suit.c }, { rank := Poker.Rank.rQ, suit := Poker.Suit.c }, { rank := Poker.Rank.rK, suit := Poker.Suit.c }, { rank := Poker.Rank.rA, suit := Poker.Suit.c }, { rank := Poker.Rank.r2, suit := Poker.Suit.s }, { rank := Poker.Rank.r3, suit := Poker.Suit.s }, { rank := Poker.Rank.r4, suit := Poker.Suit.s }, { rank := Poker.Rank.r5, suit := Poker.Suit.s }, { rank := Poker.Rank.r6, suit := Poker.Suit.s }, { rank := Poker.Rank.r7, suit := Poker.Suit.s }, { rank := Poker.Rank.r8, suit := Poker.Suit.s }, { rank := Poker.Rank.r9, suit := Poker.Suit.s }, { rank := Poker.Rank.rT, suit := Poker.Suit.s }, { rank := Poker.Rank.rJ, suit := Poker.Suit.s }, { rank := Poker.Rank.rQ, suit := Poker.Suit.s }, { rank := Poker.Rank.rK, suit := Poker.Suit.s }, { rank := Poker.Rank.rA, suit := Poker.Suit.s }], handRecord := some { handId := "h", tableId := "t", players := [{ id := "A", name := "A", startChips := 300 }, { id := "B", name := "B", startChips := 300 }, { id := "C", name := "C", startChips := 300 }, { id := "D", name := "D", startChips := 50 }, { id := "E", name := "E", startChips := 20 }], holeCards := [("A", [{ rank := Poker.Rank.r2, suit := Poker.Suit.h }, { rank := Poker.Rank.r3, suit := Poker.Suit.h }]), ("B", [{ rank := Poker.Rank.r4, suit := Poker.Suit.h }, { rank := Poker.Rank.r5, suit := Poker.Suit.h }]), ("C", [{ rank := Poker.Rank.r6, suit := Poker.Suit.h }, { rank := Poker.Rank.r7, suit := Poker.Suit.h }]), ("D", [{ rank := Poker.Rank.r8, suit := Poker.Suit.h }, { rank := Poker.Rank.r9, suit := Poker.Suit.h }]), ("E", [{ rank := Poker.Rank.rT, suit := Poker.Suit.h }, { rank := Poker.Rank.rJ, suit := Poker.Suit.h }])], communityCards := [{ rank := Poker.Rank.rQ, suit := Poker.Suit.h }, { rank := Poker.Rank.rK, suit := Poker.Suit.h }, { rank := Poker.Rank.rA, suit := Poker.Suit.h }], actions := [{ agentId := "D", action := Poker.ActionType.all_in, amount := 50, timestamp := 0 }, { agentId := "E", action := Poker.ActionType.all_in, amount := 20, timestamp := 0 }, { agentId := "A", action := Poker.ActionType.raise, amount := 200, timestamp := 0 }, { agentId := "B", action := Poker.ActionType.call, amount := 190, timestamp := 0 }, { agentId := "C", action := Poker.ActionType.fold, amount := 0, timestamp := 0 }], chat := [], pot := 490, winnerId := none, winnerName := none, winningHand := none, startedAt := 0, endedAt := 0 }, lastActionTime := 0, actionTimeoutMs := 15000, lastHandResult := none }

/-- State 7 of the C1 trace. -/
def c1s7 : TableState :=
  { tableId := "t", handId := "h", phase := Poker.Phase.flop, players := [{ agentId := "A", name := "A", chips := 100, holeCards := [{ rank := Poker.Rank.r2, suit := Poker.Suit.h }, { rank := Poker.Rank.r3, suit := Poker.Suit.h }], bet := 0, totalBet := 200, status := Poker.PlayerStatus.active, seatIndex := 0, hasActed := false, sitOutCount := 0 }, { agentId := "B", name := "B", chips := 100, holeCards := [{ rank := Poker.Rank.r4, suit := Poker.Suit.h }, { rank := Poker.Rank.r5, suit := Poker.Suit.h }], bet := 0, totalBet := 200, status := Poker.PlayerStatus.folded, seatIndex := 1, hasActed := true, sitOutCount := 0 }, { agentId := "C", name := "C", chips := 280, holeCards := [{ rank := Poker.Rank.r6, suit := Poker.Suit.h }, { rank := Poker.Rank.r7, suit := Poker.Suit.h }], bet := 0, totalBet := 20, status := Poker.PlayerStatus.folded, seatIndex := 2, hasActed := true, sitOutCount := 0 }, { agentId := "D", name := "D", chips := 0, holeCards := [{ rank := Poker.Rank.r8, suit := Poker.Suit.h }, { rank := Poker.Rank.r9, suit := Poker.Suit.h }], bet := 0, totalBet := 50, status := Poker.PlayerStatus.all_in, seatIndex := 3, hasActed := true, sitOutCount := 0 }, { agentId := "E", name := "E", chips := 0, holeCards := [{ rank := Poker.Rank.rT, suit := Poker.Suit.h }, { rank := Poker.Rank.rJ, suit := Poker.Suit.h }], bet := 0, totalBet := 20, status := Poker.PlayerStatus.all_in, seatIndex := 4, hasActed := true, sitOutCount := 0 }], communityCards := [{ rank := Poker.Rank.rQ, suit := Poker.Suit.h }, { rank := Poker.Rank.rK, suit := Poker.Suit.h }, { rank := Poker.Rank.rA, suit := Poker.Suit.h }], pot := 490, currentBet := 0, currentTurnIndex := 0, dealerIndex := 0, smallBlind := 10, bigBlind := 20, deck := [{ rank := Poker.Rank.r2, suit := Poker.Suit.d }, { rank := Poker.Rank.r3, suit := Poker.Suit.d }, { rank := Poker.Rank.r4, suit := Poker.Suit.d }, { rank := Poker.Rank.r5, suit := Poker.Suit.d }, { rank := Poker.Rank.r6, suit := Poker.Suit.d }, { rank := Poker.Rank.r7, suit := Poker.Suit.d }, { rank := Poker.Rank.r8, suit := Poker.Suit.d }, { rank := Poker.Rank.r9, suit := Poker.Suit.d }, { rank := Poker.Rank.rT, suit := Poker.Suit.d }, { rank := Poker.Rank.rJ, suit := Poker.Suit.d }, { rank := Poker.Rank.rQ, suit := Poker.Suit.d }, { rank := Poker.Rank.rK, suit := Poker.Suit.d }, { rank := Poker.Rank.rA, suit := Poker.Suit.d }, { rank := Poker.Rank.r2, suit := Poker.Suit.c }, { rank := Poker.Rank.r3, suit := Poker.Suit.c }, { rank := Poker.Rank.r4, suit := Poker.Suit.c }, { rank := Poker.Rank.r5, suit := Poker.Suit.c }, { rank := Poker.Rank.r6, suit := Poker.Suit.c }, { rank := Poker.Rank.r7, suit := Poker.Suit.c }, { rank := Poker.Rank.r8, suit := Poker.Suit.c }, { rank := Poker.Rank.r9, suit := Poker.Suit.c }, { rank := Poker.Rank.rT, suit := Poker.Suit.c }, { rank := Poker.Rank.rJ, suit := Poker.Suit.c }, { rank := Poker.Rank.rQ, suit := Poker.Suit.c }, { rank := Poker.Rank.rK, suit := Poker.Suit.c }, { rank := Poker.Rank.rA, suit := Poker.Suit.c }, { rank := Poker.Rank.r2, suit := Poker.Suit.s }, { rank := Poker.Rank.r3, suit := Poker.Suit.s }, { rank := Poker.Rank.r4, suit := Poker.Suit.s }, { rank := Poker.Rank.r5, suit := Poker.Suit.s }, { rank := Poker.Rank.r6, suit := Poker.Suit.s }, { rank := Poker.Rank.r7, suit := Poker.Suit.s }, { rank := Poker.Rank.r8, suit := Poker.Suit.s }, { rank := Poker.Rank.r9, suit := Poker.Suit.s }, { rank := Poker.Rank.rT, suit := Poker.Suit.s }, { rank := Poker.Rank.rJ, suit := Poker.Suit.s }, { rank := Poker.Rank.rQ, suit := Poker.Suit.s }, { rank := Poker.Rank.rK, suit := Poker.Suit.s }, { rank := Poker.Rank.rA, suit := Poker.Suit.s }], handRecord := some { handId := "h", tableId := "t", players := [{ id := "A", name := "A", startChips := 300 }, { id := "B", name := "B", startChips := 300 }, { id := "C", name := "C", startChips := 300 }, { id := "D", name := "D", startChips := 50 }, { id := "E", name := "E", startChips := 20 }], holeCards := [("A", [{ rank := Poker.Rank.r2, suit := Poker.Suit.h }, { rank := Poker.Rank.r3, suit := Poker.Suit.h }]), ("B", [{ rank := Poker.Rank.r4, suit := Poker.Suit.h }, { rank := Poker.Rank.r5, suit := Poker.Suit.h }]), ("C", [{ rank := Poker.Rank.r6, suit := Poker.Suit.h }, { rank := Poker.Rank.r7, suit := Poker.Suit.h }]), ("D", [{ rank := Poker.Rank.r8, suit := Poker.Suit.h }, { rank := Poker.Rank.r9, suit := Poker.Suit.h }]), ("E", [{ rank := Poker.Rank.rT, suit := Poker.Suit.h }, { rank := Poker.Rank.rJ, suit := Poker.Suit.h }])], communityCards := [{ rank := Poker.Rank.rQ, suit := Poker.Suit.h }, { rank := Poker.Rank.rK, suit := Poker.Suit.h }, { rank := Poker.Rank.rA, suit := Poker.Suit.h }], actions := [{ agentId := "D", action := Poker.ActionType.all_in, amount := 50, timestamp := 0 }, { agentId := "E", action := Poker.ActionType.all_in, amount := 20, timestamp := 0 }, { agentId := "A", action := Poker.ActionType.raise, amount := 200, timestamp := 0 }, { agentId := "B", action := Poker.ActionType.call, amount := 190, timestamp := 0 }, { agentId := "C", action := Poker.ActionType.fold, amount := 0, timestamp := 0 }, { agentId := "B", action := Poker.ActionType.fold, amount := 0, timestamp := 0 }], chat := [], pot := 490, winnerId := none, winnerName := none, winningHand := none, startedAt := 0, endedAt := 0 }, lastActionTime := 0, actionTimeoutMs := 15000, lastHandResult := none }

/-- State 8 of the C1 trace. -/
def c1s8 : TableState :=
  { tableId := "t", handId := "h", phase := Poker.Phase.showdown, players := [{ agentId := "A", name := "A", chips := 100, holeCards := [{ rank := Poker.Rank.r2, suit := Poker.Suit.h }, { rank := Poker.Rank.r3, suit := Poker.Suit.h }], bet := 0, totalBet := 200, status := Poker.PlayerStatus.folded, seatIndex := 0, hasActed := true, sitOutCount := 0 }, { agentId := "B", name := "B", chips := 100, holeCards := [{ rank := Poker.Rank.r4, suit := Poker.Suit.h }, { rank := Poker.Rank.r5, suit := Poker.Suit.h }], bet := 0, totalBet := 200, status := Poker.PlayerStatus.folded, seatIndex := 1, hasActed := true, sitOutCount := 0 }, { agentId := "C", name := "C", chips := 280, holeCards := [{ rank := Poker.Rank.r6, suit := Poker.Suit.h }, { rank := Poker.Rank.r7, suit := Poker.Suit.h }], bet := 0, totalBet := 20, status := Poker.PlayerStatus.folded, seatIndex := 2, hasActed := true, sitOutCount := 0 }, { agentId := "D", name := "D", chips := 90, holeCards := [{ rank := Poker.Rank.r8, suit := Poker.Suit.h }, { rank := Poker.Rank.r9, suit := Poker.Suit.h }], bet := 0, totalBet := 50, status := Poker.PlayerStatus.active, seatIndex := 3, hasActed := true, sitOutCount := 0 }, { agentId := "E", name := "E", chips := 100, holeCards := [{ rank := Poker.Rank.rT, suit := Poker.Suit.h }, { rank := Poker.Rank.rJ, suit := Poker.Suit.h }], bet := 0, totalBet := 20, status := Poker.PlayerStatus.active, seatIndex := 4, hasActed := true, sitOutCount := 0 }], communityCards := [{ rank := Poker.Rank.rQ, suit := Poker.Suit.h }, { rank := Poker.Rank.rK, suit := Poker.Suit.h }, { rank := Poker.Rank.rA, suit := Poker.Suit.h }, { rank := Poker.Rank.r2, suit := Poker.Suit.d }, { rank := Poker.Rank.r3, suit := Poker.Suit.d }], pot := 0, currentBet := 0, currentTurnIndex := -1, dealerIndex := 1, smallBlind := 10, bigBlind := 20, deck := [{ rank := Poker.Rank.r4, suit := Poker.Suit.d }, { rank := Poker.Rank.r5, suit := Poker.Suit.d }, { rank := Poker.Rank.r6, suit := Poker.Suit.d }, { rank := Poker.Rank.r7, suit := Poker.Suit.d }, { rank := Poker.Rank.r8, suit := Poker.Suit.d }, { rank := Poker.Rank.r9, suit := Poker.Suit.d }, { rank := Poker.Rank.rT, suit := Poker.Suit.d }, { rank := Poker.Rank.rJ, suit := Poker.Suit.d }, { rank := Poker.Rank.rQ, suit := Poker.Suit.d }, { rank := Poker.Rank.rK, suit := Poker.Suit.d }, { rank := Poker.Rank.rA, suit := Poker.Suit.d }, { rank := Poker.Rank.r2, suit := Poker.Suit.c }, { rank := Poker.Rank.r3, suit := Poker.Suit.c }, { rank := Poker.Rank.r4, suit := Poker.Suit.c }, { rank := Poker.Rank.r5, suit := Poker.Suit.c }, { rank := Poker.Rank.r6, suit := Poker.Suit.c }, { rank := Poker.Rank.r7, suit := Poker.Suit.c }, { rank := Poker.Rank.r8, suit := Poker.Suit.c }, { rank := Poker.Rank.r9, suit := Poker.Suit.c }, { rank := Poker.Rank.rT, suit := Poker.Suit.c }, { rank := Poker.Rank.rJ, suit := Poker.Suit.c }, { rank := Poker.Rank.rQ, suit := Poker.Suit.c }, { rank := Poker.Rank.rK, suit := Poker.Suit.c }, { rank := Poker.Rank.rA, suit := Poker.Suit.c }, { rank := Poker.Rank.r2, suit := Poker.Suit.s }, { rank := Poker.Rank.r3, suit := Poker.Suit.s }, { rank := Poker.Rank.r4, suit := Poker.Suit.s }, { rank := Poker.Rank.r5, suit := Poker.Suit.s }, { rank := Poker.Rank.r6, suit := Poker.Suit.s }, { rank := Poker.Rank.r7, suit := Poker.Suit.s }, { rank := Poker.Rank.r8, suit := Poker.Suit.s }, { rank := Poker.Rank.r9, suit := Poker.Suit.s }, { rank := Poker.Rank.rT, suit := Poker.Suit.s }, { rank := Poker.Rank.rJ, suit := Poker.Suit.s }, { rank := Poker.Rank.rQ, suit := Poker.Suit.s }, { rank := Poker.Rank.rK, suit := Poker.Suit.s }, { rank := Poker.Rank.rA, suit := Poker.Suit.s }], handRecord := some { handId := "h", tableId := "t", players := [{ id := "A", name := "A", startChips := 300 }, { id := "B", name := "B", startChips := 300 }, { id := "C", name := "C", startChips := 300 }, { id := "D", name := "D", startChips := 50 }, { id := "E", name := "E", startChips := 20 }], holeCards := [("A", [{ rank := Poker.Rank.r2, suit := Poker.Suit.h }, { rank := Poker.Rank.r3, suit := Poker.Suit.h }]), ("B", [{ rank := Poker.Rank.r4, suit := Poker.Suit.h }, { rank := Poker.Rank.r5, suit := Poker.Suit.h }]), ("C", [{ rank := Poker.Rank.r6, suit := Poker.Suit.h }, { rank := Poker.Rank.r7, suit := Poker.Suit.h }]), ("D", [{ rank := Poker.Rank.r8, suit := Poker.Suit.h }, { rank := Poker.Rank.r9, suit := Poker.Suit.h }]), ("E", [{ rank := Poker.Rank.rT, suit := Poker.Suit.h }, { rank := Poker.Rank.rJ, suit := Poker.Suit.h }])], communityCards := [{ rank := Poker.Rank.rQ, suit := Poker.Suit.h }, { rank := Poker.Rank.rK, suit := Poker.Suit.h }, { rank := Poker.Rank.rA, suit := Poker.Suit.h }, { rank := Poker.Rank.r2, suit := Poker.Suit.d }, { rank := Poker.Rank.r3, suit := Poker.Suit.d }], actions := [{ agentId := "D", action := Poker.ActionType.all_in, amount := 50, timestamp := 0 }, { agentId := "E", action := Poker.ActionType.all_in, amount := 20, timestamp := 0 }, { agentId := "A", action := Poker.ActionType.raise, amount := 200, timestamp := 0 }, { agentId := "B", action := Poker.ActionType.call, amount := 190, timestamp := 0 }, { agentId := "C", action := Poker.ActionType.fold, amount := 0, timestamp := 0 }, { agentId := "B", action := Poker.ActionType.fold, amount := 0, timestamp := 0 }, { agentId := "A", action := Poker.ActionType.fold, amount := 0, timestamp := 0 }], chat := [], pot := 490, winnerId := some "E", winnerName := some "E", winningHand := some "Royal Flush", startedAt := 0, endedAt := 0 }, lastActionTime := 0, actionTimeoutMs := 15000, lastHandResult := some { winnerName := "E", winningHand := "Royal Flush", potWon := 490, handId := "h" } }

/-- **C1** (code bug): chip conservation fails.  From c1State, startHand
and seven accepted actions (D all-in 50, E all-in 20, A raise 200, B call,
C fold, B fold, A fold) reach resolveHand at showdown, after which the
table accounts for 670 chips although the hand started with 970: the
(50, 200] side-pot layer - 300 chips contributed by the folded players A
and B above every surviving stack - has an empty eligible set, so
calculateSidePots drops it (it pushes a layer only when eligible.length >
0) and resolveHand zeroes the pot without awarding those chips.  Each
conjunct is one accepted step of the trace through the literal
intermediate states c1s1 to c1s8. -/
theorem C1_chip_conservation_bug :
    startHand c1State createDeck "h" 0 = some c1s1 ∧
    processAction c1s1 "D" ActionType.all_in none 0 =
      some (ActResult.ok c1s2) ∧
    processAction c1s2 "E" ActionType.all_in none 0 =
      some (ActResult.ok c1s3) ∧
    processAction c1s3 "A" ActionType.raise (some 200) 0 =
      some (ActResult.ok c1s4) ∧
    processAction c1s4 "B" ActionType.call none 0 =
      some (ActResult.ok c1s5) ∧
    processAction c1s5 "C" ActionType.fold none 0 =
      some (ActResult.ok c1s6) ∧
    processAction c1s6 "B" ActionType.fold none 0 =
      some (ActResult.ok c1s7) ∧
    processAction c1s7 "A" ActionType.fold none 0 =
      some (ActResult.ok c1s8) ∧
    c1s8.phase = Phase.showdown ∧
    chipTotal c1State = 970 ∧
    chipTotal c1s8 = 670 := by
  refine ⟨?_, ?_, ?_, ?_, ?_, ?_, ?_, ?_, ?_, ?_, ?_⟩ <;> decide


end Poker
